import Mathlib

/-!
Verification of the Pizzatorio `FactorySim` engine (`game/simulation.py`,
`config.py`, catalog modules) against its natural-language specification.

Python floats are modelled as exact rationals (`ℚ`), Python ints as `ℤ`
(or `ℕ` for counters that are only ever incremented from zero), Python
strings as `String`, dicts with a fixed iteration order as association
lists in that order.  All definitions are translated from the source;
the two exceptions, marked `Modelled from the spec:` in their doc
comments, are the pseudo-random source (Python's `random.Random`, which
lives outside the repository) and the spec-side assembly matcher used to
compare against the code's actual behaviour.
-/

namespace Pizzatorio

/-- `clamp` from `game/simulation.py`: `max(lo, min(hi, v))`. -/
def clamp (v lo hi : ℚ) : ℚ := max lo (min hi v)

/-- Python `int(x)` on a float: truncation toward zero. -/
def pyTrunc (q : ℚ) : ℤ := if 0 ≤ q then q.floor else -((-q).floor)

/-- Python `round(x)` on a float: round half to even. -/
def pyRound (q : ℚ) : ℤ :=
  let f := q.floor
  let frac := q - (f : ℚ)
  if frac < 1/2 then f
  else if 1/2 < frac then f + 1
  else if f % 2 = 0 then f else f + 1

/-- Last `n` elements of a list (Python `l[-n:]`). -/
def lastN (n : ℕ) (l : List α) : List α := l.drop (l.length - n)

/-- Modelled from the spec: the engine-owned, explicitly seeded
pseudo-random source (`random.Random(seed)` in `FactorySim.__init__`).
The Mersenne-Twister internals are Python-stdlib code outside this
repository; the spec only requires a deterministic seeded stream, so it
is modelled as a 64-bit linear congruential generator. -/
structure PyRandom where
  state : ℕ
deriving DecidableEq, Repr

/-- Modelled from the spec: seeding the engine-owned generator. -/
def PyRandom.ofSeed (seed : ℕ) : PyRandom := ⟨seed % 2 ^ 64⟩

/-- Modelled from the spec: one raw step of the deterministic stream. -/
def PyRandom.next (r : PyRandom) : ℕ × PyRandom :=
  let s := (6364136223846793005 * r.state + 1442695040888963407) % 2 ^ 64
  (s, ⟨s⟩)

/-- Modelled from the spec: `rng.random()` — a rational in `[0, 1)`. -/
def PyRandom.randomQ (r : PyRandom) : ℚ × PyRandom :=
  let step := r.next
  (((step.1 % 2 ^ 53 : ℕ) : ℚ) / (2 ^ 53 : ℚ), step.2)

/-- Modelled from the spec: `rng.uniform(a, b) = a + (b - a) * random()`. -/
def PyRandom.uniformQ (r : PyRandom) (a b : ℚ) : ℚ × PyRandom :=
  let draw := r.randomQ
  (a + (b - a) * draw.1, draw.2)

/-- Helper for weighted choice: walk the population subtracting weights
until the draw falls inside the current slot. -/
def weightedPick (pop : List α) (ws : List ℚ) (x : ℚ) (d : α) : α :=
  match pop, ws with
  | [], _ => d
  | [p], _ => p
  | p :: ps, w :: rest => if x < w then p else weightedPick ps rest (x - w) d
  | p :: _, [] => p

/-- Modelled from the spec: `rng.choices(pop, weights=ws, k=1)[0]` —
a single weighted draw from the population. -/
def PyRandom.choicesQ (r : PyRandom) (pop : List α) (ws : List ℚ) (d : α) :
    α × PyRandom :=
  let draw := r.randomQ
  let total := ws.foldl (· + ·) 0
  (weightedPick pop ws (draw.1 * total) d, draw.2)

/-- Modelled from the spec: `rng.choice(seq)` — a uniform draw. -/
def PyRandom.choiceQ (r : PyRandom) (pop : List α) (d : α) : α × PyRandom :=
  let draw := r.randomQ
  let idx := (pyTrunc (draw.1 * pop.length)).toNat
  (pop.getD idx d, draw.2)

/-! ### Entity dataclasses (`game/entities.py`) -/

/-- `Tile` dataclass: one grid cell. -/
structure Tile where
  kind : String := "empty"
  rot : ℤ := 0
  hygiene_penalty : ℤ := 0
deriving DecidableEq, Repr

/-- `Item` dataclass: an ingredient/food item travelling the factory. -/
structure Item where
  x : ℤ
  y : ℤ
  progress : ℚ := 0
  stage : String := "raw"
  delivery_boost : ℚ := 0
  ingredient_type : String := ""
  recipe_key : String := ""
deriving DecidableEq, Repr

/-- `Delivery` dataclass: an in-flight delivery. -/
structure Delivery where
  mode : String
  remaining : ℚ
  sla : ℚ
  duration : ℚ
  recipe_key : String
  reward : ℤ
  elapsed : ℚ := 0
  late_reward_multiplier : ℚ := 1
deriving DecidableEq, Repr

/-- `Order` dataclass: a pending customer order. -/
structure Order where
  recipe_key : String
  remaining_sla : ℚ
  total_sla : ℚ
  reward : ℤ
  channel_key : String := "delivery"
deriving DecidableEq, Repr

/-! ### Configuration constants (`config.py`) -/

def GRID_W : ℤ := 20
def GRID_H : ℤ := 15

def EMPTY : String := "empty"
def CONVEYOR : String := "conveyor"
def MACHINE : String := "machine"
def PROCESSOR : String := "processor"
def OVEN : String := "oven"
def BOT_DOCK : String := "bot_dock"
def ASSEMBLY_TABLE : String := "assembly_table"
def SOURCE : String := "source"
def SINK : String := "sink"

def ITEM_STAGE_ORDER : List String := ["raw", "processed", "baked"]

/-- `DIRS[rot % 4]`: rotation index to unit direction vector. -/
def DIRS (r : ℤ) : ℤ × ℤ :=
  if r = 0 then (1, 0) else if r = 1 then (0, 1)
  else if r = 2 then (-1, 0) else (0, -1)

/-- One entry of `PROCESS_FLOW` (`from` and `to` are Lean keywords, hence
`from_stage` / `to_stage`). -/
structure Flow where
  from_stage : String
  to_stage : String
  research_gain : ℚ
  delivery_boost : Option ℚ := none
deriving DecidableEq, Repr

/-- `PROCESS_FLOW`: which tile kind transforms item stages. -/
def PROCESS_FLOW (kind : String) : Option Flow :=
  if kind = PROCESSOR then some ⟨"raw", "processed", 0.12, none⟩
  else if kind = OVEN then some ⟨"processed", "baked", 0.25, none⟩
  else if kind = BOT_DOCK then some ⟨"baked", "baked", 0.06, some 1.2⟩
  else none

def TURBO_OVEN_SPEED_BONUS : ℚ := 0.18
def PRECISION_COOKING_WASTE_REFUND : ℚ := 0.40
def HYGIENE_TRAINING_RECOVERY_BONUS : ℚ := 0.30
def PRIORITY_DISPATCH_LATE_MULTIPLIER : ℚ := 0.75
def DOUBLE_SPAWN_INTERVAL_DIVISOR : ℚ := 1.75

def ITEM_SPAWN_INTERVAL : ℚ := 1.8
def ORDER_SPAWN_INTERVAL : ℚ := 5.5
def HYGIENE_EVENT_COOLDOWN : ℚ := 14.0
def HYGIENE_EVENT_CHANCE : ℚ := 0.015
def HYGIENE_RECOVERY_RATE : ℚ := 0.35
def EXPANSION_PROGRESS_RATE : ℚ := 0.35
def EXPANSION_DELIVERY_BONUS : ℚ := 0.002
def EXPANSION_BASE_NEEDED : ℚ := 24.0
def TURBO_BELT_BONUS : ℚ := 0.25
def ASSEMBLY_TABLE_SPEED : ℚ := 0.60
def BOT_AUTO_CHARGE_RATE : ℚ := 0.18
def BOT_AUTO_DELIVERY_REDUCTION : ℚ := 0.8
def LATE_DELIVERY_PENALTY : ℚ := 0.5

def STARTING_MONEY : ℤ := 1000

def MACHINE_BUILD_COSTS : List (String × ℤ) :=
  [("conveyor", 10), ("processor", 80), ("oven", 150),
   ("bot_dock", 200), ("assembly_table", 120)]

def REPUTATION_STARTING : ℚ := 50.0
def REPUTATION_GAIN_ONTIME : ℚ := 0.8
def REPUTATION_LOSS_LATE : ℚ := 1.5
def REPUTATION_LOSS_MISSED_ORDER : ℚ := 1.0
def MISSED_ORDER_CASH_PENALTY_MULTIPLIER : ℚ := 0.25

def SECOND_LOCATION_REWARD_BONUS : ℚ := 0.15
def FRANCHISE_EXPANSION_BONUS : ℚ := 2.0

/-- `INGREDIENT_SPAWN_WEIGHTS` in dict insertion order. -/
def INGREDIENT_SPAWN_WEIGHTS : List (String × ℚ) :=
  [("flour", 3.0), ("tomato", 2.5), ("cheese", 2.5), ("pepperoni", 1.5),
   ("ham", 1.2), ("chicken", 1.0), ("mushroom", 1.0), ("pepper", 0.8),
   ("onion", 0.8), ("olive", 0.7), ("pineapple", 0.5), ("jalapeno", 0.7),
   ("artichoke", 0.4), ("bacon", 1.0), ("sausage", 0.8), ("garlic", 1.2),
   ("spinach", 0.6), ("corn", 0.5), ("anchovy", 0.3), ("beef", 0.7),
   ("rocket", 0.4), ("basil", 0.6)]

/-- `INGREDIENT_TO_PRODUCTS`: raw ingredient type to producible product ids. -/
def INGREDIENT_TO_PRODUCTS : List (String × List String) :=
  [("flour", ["rolled_pizza_base"]), ("tomato", ["tomato_sauce"]),
   ("cheese", ["shredded_cheese", "sliced_mozzarella"]),
   ("pepperoni", ["sliced_pepperoni"]), ("ham", ["chopped_ham"]),
   ("chicken", ["diced_chicken"]), ("mushroom", ["sliced_mushroom"]),
   ("pepper", ["sliced_pepper"]), ("onion", ["diced_onion"]),
   ("olive", ["sliced_olives"]), ("pineapple", ["pineapple_chunks"]),
   ("jalapeno", ["sliced_jalapeno"]), ("artichoke", ["artichoke_hearts"]),
   ("bacon", ["bacon_strips"]), ("sausage", ["sliced_sausage"]),
   ("garlic", ["minced_garlic"]), ("spinach", ["washed_spinach"]),
   ("corn", ["corn_kernels"]), ("anchovy", ["anchovy_fillets"]),
   ("beef", ["cooked_beef_crumble"]), ("rocket", ["rocket_leaves"]),
   ("basil", ["fresh_basil"])]

/-! ### Catalogs (default catalogs: no `data/` files are present in the
repository, so every loader falls back to its built-in defaults, sorted
into the runtime-dict order of `_ordered_runtime_catalog`). -/

/-- Runtime recipe record (`RecipeDefinition.to_runtime_dict`). -/
structure Recipe where
  display_name : String
  sell_price : ℤ
  sla : ℚ
  unlock_tier : ℤ
  cook_time : ℚ
  cook_temp : String
  difficulty : ℤ
  base : String := "rolled_pizza_base"
  sauce : String := "tomato_sauce"
  cheese : String := "shredded_cheese"
  toppings : List String := []
  post_oven : List String := []
deriving DecidableEq, Repr

/-- `RECIPES = load_recipe_catalog(...)`: built-in defaults ordered by
`(unlock_tier, key)`. -/
def RECIPES : List (String × Recipe) :=
  [("margherita",
    { display_name := "Margherita", sell_price := 12, sla := 11.0,
      unlock_tier := 0, cook_time := 8.0, cook_temp := "medium",
      difficulty := 1, cheese := "sliced_mozzarella",
      toppings := ["fresh_basil"] }),
   ("pepperoni",
    { display_name := "Pepperoni", sell_price := 15, sla := 10.0,
      unlock_tier := 1, cook_time := 7.5, cook_temp := "high",
      difficulty := 2, toppings := ["sliced_pepperoni"] }),
   ("veggie",
    { display_name := "Veggie Deluxe", sell_price := 17, sla := 9.5,
      unlock_tier := 2, cook_time := 8.2, cook_temp := "medium",
      difficulty := 2,
      toppings := ["sliced_pepper", "sliced_mushroom", "diced_onion"] })]

/-- Runtime order-channel record (`OrderChannelDefinition.to_runtime_dict`). -/
structure ChannelCfg where
  display_name : String
  reward_multiplier : ℚ := 1.0
  sla_multiplier : ℚ := 1.0
  demand_weight : ℚ := 1.0
  delivery_modes : List String := ["drone", "scooter"]
  min_reputation : ℚ := 0.0
  min_recipe_difficulty : ℤ := 1
  max_recipe_difficulty : ℤ := 5
  max_active_orders : ℤ := 6
  late_reward_multiplier : ℚ := 1.0
  missed_order_penalty_multiplier : ℚ := 1.0
deriving DecidableEq, Repr

/-- `ORDER_CHANNELS`: built-in defaults sorted by key. -/
def ORDER_CHANNELS : List (String × ChannelCfg) :=
  [("delivery",
    { display_name := "Delivery", reward_multiplier := 1.0,
      sla_multiplier := 1.0, demand_weight := 1.0,
      delivery_modes := ["drone", "scooter"], min_reputation := 0.0,
      min_recipe_difficulty := 1, max_recipe_difficulty := 5,
      max_active_orders := 8, late_reward_multiplier := 1.0,
      missed_order_penalty_multiplier := 1.0 }),
   ("eat_in",
    { display_name := "Eat-in", reward_multiplier := 1.15,
      sla_multiplier := 1.2, demand_weight := 0.65,
      delivery_modes := ["scooter"], min_reputation := 25.0,
      min_recipe_difficulty := 2, max_recipe_difficulty := 5,
      max_active_orders := 4, late_reward_multiplier := 0.7,
      missed_order_penalty_multiplier := 1.25 }),
   ("takeaway",
    { display_name := "Takeaway", reward_multiplier := 0.85,
      sla_multiplier := 1.35, demand_weight := 0.75,
      delivery_modes := ["scooter"], min_reputation := 10.0,
      min_recipe_difficulty := 1, max_recipe_difficulty := 3,
      max_active_orders := 6, late_reward_multiplier := 0.9,
      missed_order_penalty_multiplier := 0.8 })]

/-- Runtime commercial record (`CommercialDefinition.to_runtime_dict`). -/
structure CommercialCfg where
  display_name : String
  activation_cost : ℤ := 0
  demand_multiplier : ℚ := 1.0
  reward_multiplier : ℚ := 1.0
  required_research : String := ""
deriving DecidableEq, Repr

/-- `COMMERCIALS`: built-in defaults sorted by key. -/
def COMMERCIALS : List (String × CommercialCfg) :=
  [("campaigns",
    { display_name := "Campaigns", activation_cost := 120,
      demand_multiplier := 1.25, reward_multiplier := 1.0 }),
   ("franchise",
    { display_name := "Franchise", activation_cost := 180,
      demand_multiplier := 1.15, reward_multiplier := 1.08,
      required_research := "franchise_system" }),
   ("promos",
    { display_name := "Promos", activation_cost := 90,
      demand_multiplier := 1.0, reward_multiplier := 1.1 })]

/-- Runtime research record (`ResearchDefinition.to_runtime_dict`). -/
structure ResearchCfg where
  display_name : String
  branch : String
  cost : ℚ
  prerequisites : List String := []
deriving DecidableEq, Repr

/-- `RESEARCH = load_research_catalog()`: built-in defaults sorted by
`(cost, key)`. -/
def RESEARCH : List (String × ResearchCfg) :=
  [("ovens", ⟨"Oven Foundations", "cooking", 12.0, []⟩),
   ("bots", ⟨"Bot Docks", "automation", 28.0, []⟩),
   ("turbo_oven", ⟨"Turbo Ovens", "cooking", 40.0, []⟩),
   ("hygiene_training", ⟨"Hygiene Training", "automation", 50.0, []⟩),
   ("turbo_belts", ⟨"Turbo Belts", "logistics", 55.0, []⟩),
   ("priority_dispatch", ⟨"Priority Dispatch", "logistics", 85.0, []⟩),
   ("precision_cooking", ⟨"Precision Cooking", "cooking", 95.0, ["turbo_oven"]⟩),
   ("double_spawn", ⟨"Double Spawn", "logistics", 140.0, []⟩),
   ("second_location", ⟨"Second Location", "expansion", 180.0, []⟩),
   ("franchise_system", ⟨"Franchise System", "expansion", 320.0, []⟩)]

/-- `TECH_UNLOCK_COSTS`: derived from the research catalog, same order. -/
def TECH_UNLOCK_COSTS : List (String × ℚ) :=
  RESEARCH.map (fun p => (p.1, p.2.cost))

/-! ### Engine state (`FactorySim`) -/

/-- The full mutable state of `FactorySim` (`game/simulation.py`). -/
structure FactorySim where
  rng : PyRandom
  grid : List (List Tile)
  items : List Item
  deliveries : List Delivery
  orders : List Order
  time : ℚ
  spawn_timer : ℚ
  order_spawn_timer : ℚ
  hygiene : ℚ
  bottleneck : ℚ
  expansion_level : ℤ
  expansion_progress : ℚ
  research_points : ℚ
  tech_tree : List (String × Bool)
  auto_bot_charge : ℚ
  completed : ℕ
  ontime : ℕ
  money : ℤ
  waste : ℕ
  total_revenue : ℤ
  total_spend : ℤ
  event_log : List String
  last_hygiene_event : ℚ
  reputation : ℚ
  order_channel : String
  commercial_strategy : String
  research_focus : String
deriving DecidableEq, Repr

namespace FactorySim

/-- `self.tech_tree.get(key, False)`. -/
def techGet (s : FactorySim) (key : String) : Bool :=
  (List.lookup key s.tech_tree).getD false

/-- `self.tech_tree[key] = value` (dict assignment: update in place,
append if the key is new). -/
def techAssign (key : String) (value : Bool) :
    List (String × Bool) → List (String × Bool)
  | [] => [(key, value)]
  | p :: rest =>
      if p.1 = key then (key, value) :: rest
      else p :: techAssign key value rest

/-- `_log_event`: append and keep the last 12 entries. -/
def logEvent (s : FactorySim) (msg : String) : FactorySim :=
  { s with event_log := lastN 12 (s.event_log ++ [msg]) }

/-- Indexed write into the grid (`self.grid[y][x] = tile`); rows/cells
are always addressed in range by the code paths modelled here. -/
def gridSet (g : List (List Tile)) (x y : ℕ) (t : Tile) : List (List Tile) :=
  g.set y ((g.getD y []).set x t)

/-- Indexed read `self.grid[y][x]` (with Python's negative-index wrap). -/
def pyGet (l : List α) (i : ℤ) (d : α) : α :=
  if 0 ≤ i then l.getD i.toNat d else l.getD (l.length - (-i).toNat) d

def tileAt (g : List (List Tile)) (x y : ℤ) : Tile :=
  pyGet (pyGet g y []) x {}

/-- `place_static_world`. -/
def placeStaticWorld (g : List (List Tile)) : List (List Tile) :=
  let g := gridSet g 1 7 { kind := SOURCE, rot := 0 }
  let g := gridSet g 18 7 { kind := SINK, rot := 0 }
  let g := (List.range 16).foldl
    (fun acc i => gridSet acc (2 + i) 7 { kind := CONVEYOR, rot := 0 }) g
  let g := gridSet g 7 7 { kind := PROCESSOR, rot := 0 }
  let g := gridSet g 12 7 { kind := OVEN, rot := 0 }
  gridSet g 12 6 { kind := BOT_DOCK, rot := 1 }

/-- `FactorySim.__init__(seed)` (default seed 7). -/
def init (seed : ℕ) : FactorySim :=
  let s : FactorySim :=
    { rng := PyRandom.ofSeed seed
      grid := List.replicate 15 (List.replicate 20 ({} : Tile))
      items := []
      deliveries := []
      orders := []
      time := 0
      spawn_timer := 0
      order_spawn_timer := 0
      hygiene := 100
      bottleneck := 0
      expansion_level := 1
      expansion_progress := 0
      research_points := 0
      tech_tree := TECH_UNLOCK_COSTS.map (fun p => (p.1, false))
      auto_bot_charge := 0
      completed := 0
      ontime := 0
      money := STARTING_MONEY
      waste := 0
      total_revenue := 0
      total_spend := 0
      event_log := []
      last_hygiene_event := 0
      reputation := REPUTATION_STARTING
      order_channel := "delivery"
      commercial_strategy := "campaigns"
      research_focus := "" }
  let s := s.logEvent "Factory initialized"
  { s with grid := placeStaticWorld s.grid }

/-- `order_channel_min_reputation`. -/
def orderChannelMinReputation (channel : String) : ℚ :=
  match List.lookup channel ORDER_CHANNELS with
  | none => 0
  | some cfg => max 0 cfg.min_reputation

/-- `order_channel_is_unlocked`. -/
def orderChannelIsUnlocked (s : FactorySim) (channel : String) : Bool :=
  (List.lookup channel ORDER_CHANNELS).isSome &&
    decide (orderChannelMinReputation channel ≤ s.reputation)

/-- `set_order_channel` (log text abbreviated; only structure matters). -/
def setOrderChannel (s : FactorySim) (channel : String) : FactorySim × Bool :=
  if (List.lookup channel ORDER_CHANNELS).isNone then (s, false)
  else if ¬ s.orderChannelIsUnlocked channel then
    (s.logEvent ("Order channel " ++ channel ++ " locked"), false)
  else
    let s := if channel ≠ s.order_channel then
      s.logEvent ("Order channel switched to " ++ channel) else s
    ({ s with order_channel := channel }, true)

/-- `set_commercial_strategy(strategy, charge=...)`. -/
def setCommercialStrategy (s : FactorySim) (strategy : String)
    (charge : Bool) : FactorySim × Bool :=
  match List.lookup strategy COMMERCIALS with
  | none => (s, false)
  | some cfg =>
    if strategy = s.commercial_strategy then (s, true)
    else
      let activation_cost := cfg.activation_cost
      if charge && decide (s.money < activation_cost) then
        (s.logEvent ("Commercial " ++ strategy ++ " failed"), false)
      else
        let s := if charge then
          ({ s with money := s.money - activation_cost,
                    total_spend := s.total_spend + activation_cost
           }).logEvent ("Commercial " ++ strategy ++ " activated")
          else s
        ({ s with commercial_strategy := strategy }, true)

/-- `_research_prerequisites_met`. -/
def researchPrerequisitesMet (s : FactorySim) (tech : String) : Bool :=
  (((List.lookup tech RESEARCH).map ResearchCfg.prerequisites).getD []).all
    (fun p => s.techGet p)

/-- `set_research_focus`. -/
def setResearchFocus (s : FactorySim) (tech : String) : FactorySim × Bool :=
  if tech = "" then
    ({ s.logEvent "Research focus cleared" with research_focus := "" }, true)
  else if (List.lookup tech TECH_UNLOCK_COSTS).isNone || s.techGet tech then
    (s, false)
  else if ¬ s.researchPrerequisitesMet tech then (s, false)
  else
    ({ s.logEvent ("Research focus set: " ++ tech) with
        research_focus := tech }, true)

/-- `try_unlock_research_focus`. -/
def tryUnlockResearchFocus (s : FactorySim) : FactorySim × Bool :=
  if s.research_focus ≠ "" && ¬ s.techGet s.research_focus then
    if ¬ s.researchPrerequisitesMet s.research_focus then (s, false)
    else
      match List.lookup s.research_focus TECH_UNLOCK_COSTS with
      | none => (s, false)  -- missing key has cost `inf`: never reached
      | some focus_cost =>
        if focus_cost ≤ s.research_points then
          (({ s with tech_tree := techAssign s.research_focus true s.tech_tree
            }).logEvent ("Research unlocked: " ++ s.research_focus)
            |> fun s2 => { s2 with research_focus := "" }, true)
        else (s, false)
  else (s, false)

/-- Prerequisites of `tech` all unlocked in the `snapshot` dict. -/
def snapshotPrereqsMet (snapshot : List (String × Bool)) (tech : String) :
    Bool :=
  (((List.lookup tech RESEARCH).map ResearchCfg.prerequisites).getD []).all
    (fun p => (List.lookup p snapshot).getD false)

/-- Body of the background auto-unlock loop of `_process_research`:
skip techs already unlocked in the snapshot or with snapshot-unmet
prerequisites; unlock when accumulated points cover the cost. -/
def researchStep (snapshot : List (String × Bool)) (st : FactorySim)
    (tc : String × ℚ) : FactorySim :=
  if (List.lookup tc.1 snapshot).getD false then st
  else if ¬ snapshotPrereqsMet snapshot tc.1 then st
  else if tc.2 ≤ st.research_points then
    ({ st with tech_tree := techAssign tc.1 true st.tech_tree
     }).logEvent ("Research auto-unlocked: " ++ tc.1)
  else st

/-- `_process_research`: focus unlock takes priority; otherwise background
auto-unlock against the tech state snapshot taken at pass start. -/
def processResearch (s : FactorySim) : FactorySim :=
  match s.tryUnlockResearchFocus with
  | (s1, true) => s1
  | (s1, false) =>
    TECH_UNLOCK_COSTS.foldl (researchStep s1.tech_tree) s1

/-- `_next_pos`. -/
def nextPos (x y rot : ℤ) : ℤ × ℤ :=
  let d := DIRS (rot % 4)
  (x + d.1, y + d.2)

/-- `_available_recipes(channel_key=...)`. -/
def availableRecipes (s : FactorySim) (channel_key : Option String) :
    List String :=
  let available :=
    (RECIPES.filter (fun p => p.2.unlock_tier ≤ s.expansion_level - 1)).map
      Prod.fst
  match channel_key with
  | none => available
  | some ck =>
    if ck = "" then available else
    let cfg := List.lookup ck ORDER_CHANNELS
    let min_difficulty := (cfg.map ChannelCfg.min_recipe_difficulty).getD 1
    let max_difficulty := (cfg.map ChannelCfg.max_recipe_difficulty).getD 5
    let filtered := available.filter (fun key =>
      let diff := ((List.lookup key RECIPES).map Recipe.difficulty).getD 1
      min_difficulty ≤ diff && diff ≤ max_difficulty)
    if filtered.isEmpty then available else filtered

/-- Fallback recipe used where the source indexes `RECIPES[key]` with a
key known to be present. -/
def recipeGet (key : String) : Recipe :=
  (List.lookup key RECIPES).getD
    { display_name := "", sell_price := 1, sla := 1, unlock_tier := 0,
      cook_time := 1, cook_temp := "medium", difficulty := 1 }

/-- `_spawn_order`. -/
def spawnOrder (s : FactorySim) : FactorySim :=
  let available := s.availableRecipes (some s.order_channel)
  if available.isEmpty then s
  else
    let channel_cfg := List.lookup s.order_channel ORDER_CHANNELS
    let commercial_cfg := List.lookup s.commercial_strategy COMMERCIALS
    let demand_multiplier :=
      max 0.1 ((commercial_cfg.map CommercialCfg.demand_multiplier).getD 1)
    let reward_bonus :=
      max 0.1 ((commercial_cfg.map CommercialCfg.reward_multiplier).getD 1)
    let channel_demand_weight :=
      max 0.01 ((channel_cfg.map ChannelCfg.demand_weight).getD 1)
    -- `RECIPES[key].get("demand_weight", 1.0)`: the runtime recipe dict
    -- has no `demand_weight` field, so the default 1.0 is always used.
    let weights := available.map (fun _ =>
      max 0.01 (1 * channel_demand_weight * demand_multiplier))
    let pick := s.rng.choicesQ available weights ""
    let key := pick.1
    let rng2 := pick.2
    let recipe := recipeGet key
    let sla_multiplier :=
      max 0.1 ((channel_cfg.map ChannelCfg.sla_multiplier).getD 1)
    let reward_multiplier :=
      max 0.1 ((channel_cfg.map ChannelCfg.reward_multiplier).getD 1)
    let order_sla := recipe.sla * sla_multiplier
    let order_reward :=
      max 1 (pyRound ((recipe.sell_price : ℚ) * reward_multiplier * reward_bonus))
    { s with rng := rng2,
             orders := s.orders ++
               [{ recipe_key := key, remaining_sla := order_sla,
                  total_sla := order_sla, reward := order_reward,
                  channel_key := s.order_channel }] }

/-- `_spawn_item`. -/
def spawnItem (s : FactorySim) : FactorySim :=
  let all_types := INGREDIENT_SPAWN_WEIGHTS.map Prod.fst
  let weights := INGREDIENT_SPAWN_WEIGHTS.map Prod.snd
  let pick := s.rng.choicesQ all_types weights ""
  { s with rng := pick.2,
           items := s.items ++
             [{ x := 1, y := 7, progress := 0, stage := "raw",
                ingredient_type := pick.1 }] }

/-- `_enqueue_delivery(order)`. -/
def enqueueDelivery (s : FactorySim) (order : Order) : FactorySim :=
  if order.channel_key = "eat_in" then
    { s with completed := s.completed + 1, ontime := s.ontime + 1,
             money := s.money + order.reward,
             total_revenue := s.total_revenue + order.reward,
             reputation := clamp (s.reputation + REPUTATION_GAIN_ONTIME) 0 100 }
  else
    let channel_cfg :=
      (List.lookup order.channel_key ORDER_CHANNELS).orElse
        (fun _ => List.lookup s.order_channel ORDER_CHANNELS)
    let modes :=
      (channel_cfg.map ChannelCfg.delivery_modes).getD ["drone", "scooter"]
    let pick := s.rng.choiceQ modes ""
    let mode := pick.1
    let trip :=
      if mode = "drone" then pick.2.uniformQ 3.5 7.5
      else pick.2.uniformQ 5.0 10.0
    let travel := trip.1
    let rng2 := trip.2
    let reward :=
      if s.techGet "second_location" then
        pyTrunc ((order.reward : ℚ) * (1 + SECOND_LOCATION_REWARD_BONUS))
      else order.reward
    { s with rng := rng2,
             deliveries := s.deliveries ++
               [{ mode := mode, remaining := travel, elapsed := 0,
                  sla := max 2.5 order.remaining_sla, duration := travel,
                  recipe_key := order.recipe_key, reward := reward }] }

/-- `_resolve_order_for_item(item)`: returns the popped order (if any)
and the remaining pending list. -/
def resolveOrderForItem (s : FactorySim) (item : Item) :
    Option Order × List Order :=
  match s.orders with
  | [] => (none, s.orders)
  | o0 :: rest =>
    if item.recipe_key ≠ "" then
      match s.orders.findIdx? (fun o => o.recipe_key = item.recipe_key) with
      | some idx => (s.orders.get? idx, s.orders.eraseIdx idx)
      | none => (none, s.orders)
    else
      if rest.all (fun o => o.recipe_key = o0.recipe_key) then (some o0, rest)
      else (none, s.orders)

/-- `ontime_rate` property. -/
def ontimeRate (s : FactorySim) : ℚ :=
  if s.completed = 0 then 100 else ((s.ontime : ℚ) / (s.completed : ℚ)) * 100

/-! ### The tick pass (`FactorySim.tick`) -/

/-- Replace the last element of a list (`self.deliveries[-1］` updates). -/
def updateLast (l : List Delivery) (f : Delivery → Delivery) : List Delivery :=
  match l.getLast? with
  | none => l
  | some d => l.dropLast ++ [f d]

/-- The sink branch of the transport loop for a baked item: resolve an
order and enqueue the delivery (applying the one-shot delivery boost), or
count waste (with the precision-cooking refund when no order is pending). -/
def sinkConsume (st : FactorySim) (item : Item) : FactorySim :=
  if ¬ st.orders.isEmpty then
    match st.resolveOrderForItem item with
    | (some order, rest) =>
      let st2 := FactorySim.enqueueDelivery { st with orders := rest } order
      if item.delivery_boost > 0 ∧ st2.deliveries ≠ [] then
        { st2 with deliveries := updateLast st2.deliveries (fun d =>
            let r := max 1.5 (d.remaining - item.delivery_boost)
            { d with remaining := r, duration := r }) }
      else st2
    | (none, _) =>
      ({ st with waste := st.waste + 1 }).logEvent
        "Order rejected: baked item recipe mismatch"
  else
    let st1 := { st with waste := st.waste + 1 }
    if st1.techGet "precision_cooking" ∧ RECIPES ≠ [] then
      -- `default_recipe = next(iter(RECIPES))` is "margherita"
      let refund := pyTrunc
        (((recipeGet "margherita").sell_price : ℚ) * PRECISION_COOKING_WASTE_REFUND)
      { st1 with money := st1.money + refund,
                 total_revenue := st1.total_revenue + refund }
    else st1

/-- Accumulator of the transport loop: evolving engine state, blocked
counter, and the `moved_items` list in insertion order. -/
structure TickAcc where
  st : FactorySim
  blocked : ℕ
  moved : List Item
deriving DecidableEq, Repr

/-- Movement resolution after a finished dwell: bounds check (an
out-of-bounds destination drops the item from the live set), sink intake
for baked items, impassable empty destination, collision with an item
already moved this pass, or the actual move. -/
def finishMove (acc : TickAcc) (item : Item) (nx ny : ℤ) : TickAcc :=
  if ¬ (0 ≤ nx ∧ nx < GRID_W ∧ 0 ≤ ny ∧ ny < GRID_H) then acc
  else
    let ntile := FactorySim.tileAt acc.st.grid nx ny
    if ntile.kind = SINK ∧ item.stage = "baked" then
      { acc with st := sinkConsume acc.st item }
    else if ntile.kind = EMPTY then
      { acc with blocked := acc.blocked + 1, moved := acc.moved ++ [item] }
    else if acc.moved.any (fun o => o.x = nx ∧ o.y = ny) then
      { acc with blocked := acc.blocked + 1, moved := acc.moved ++ [item] }
    else
      { acc with moved := acc.moved ++ [{ item with x := nx, y := ny }] }

/-- The stage-transformation block of the transport loop: if the tile
kind has a process-flow rule whose input stage matches, advance the
stage, credit research points, and set the one-shot delivery boost. -/
def applyFlow (st : FactorySim) (tile : Tile) (item2 : Item) :
    FactorySim × Item :=
  match PROCESS_FLOW tile.kind with
  | some flow =>
    if item2.stage = flow.from_stage then
      ({ st with research_points := st.research_points + flow.research_gain },
       { item2 with stage := flow.to_stage,
                    delivery_boost :=
                      flow.delivery_boost.getD item2.delivery_boost })
    else (st, item2)
  | none => (st, item2)

/-- The assembly-table tagging block of the transport loop: on an
assembly table, an untagged item takes the head pending order's
`recipe_key` — with no ingredient-compatibility check of any kind. -/
def applyTag (orders : List Order) (tile : Tile) (item3 : Item) : Item :=
  if tile.kind = ASSEMBLY_TABLE ∧ item3.recipe_key = "" then
    match orders with
    | o :: _ => { item3 with recipe_key := o.recipe_key }
    | [] => item3
  else item3

/-- Body of `for item in self.items` in `tick`: dwell-speed accumulation,
stage transformation, assembly-table tagging, then movement. -/
def stepItem (dt turbo : ℚ) (acc : TickAcc) (item0 : Item) : TickAcc :=
  let st := acc.st
  let tile := FactorySim.tileAt st.grid item0.x item0.y
  let speed :=
    if tile.kind = MACHINE ∨ tile.kind = PROCESSOR then 0.5 + st.hygiene / 220
    else if tile.kind = OVEN then
      (if st.techGet "turbo_oven" then TURBO_OVEN_SPEED_BONUS else 0) +
        0.35 + st.hygiene / 280
    else if tile.kind = ASSEMBLY_TABLE then ASSEMBLY_TABLE_SPEED
    else 1 + turbo
  let item1 := { item0 with progress := item0.progress + dt * speed }
  if item1.progress < 1 then { acc with moved := acc.moved ++ [item1] }
  else
    let item2 := { item1 with progress := 0 }
    if tile.kind = CONVEYOR ∨ tile.kind = SOURCE ∨ tile.kind = MACHINE ∨
        tile.kind = PROCESSOR ∨ tile.kind = OVEN ∨ tile.kind = BOT_DOCK ∨
        tile.kind = ASSEMBLY_TABLE then
      let fl := applyFlow st tile item2
      let item4 := applyTag fl.1.orders tile fl.2
      let np := FactorySim.nextPos item4.x item4.y tile.rot
      finishMove { acc with st := fl.1 } item4 np.1 np.2
    else if tile.kind = EMPTY then
      finishMove { acc with blocked := acc.blocked + 1 } item2 item2.x item2.y
    else
      finishMove acc item2 item2.x item2.y

/-- First index of the delivery with maximal `remaining` (Python `max`
keeps the first maximal element). -/
def firstMaxIdxAux : List Delivery → ℕ → ℕ → ℚ → ℕ
  | [], _, best, _ => best
  | d :: rest, cur, best, bestVal =>
    if bestVal < d.remaining then firstMaxIdxAux rest (cur + 1) cur d.remaining
    else firstMaxIdxAux rest (cur + 1) best bestVal

def firstMaxIdx : List Delivery → ℕ
  | [] => 0
  | d :: rest => firstMaxIdxAux rest 1 0 d.remaining

/-- One iteration of the auto-bot `while` loop. -/
def botStep (st : FactorySim) : FactorySim :=
  let idx := firstMaxIdx st.deliveries
  { st with
    deliveries := st.deliveries.mapIdx (fun i d =>
      if i = idx then
        let r := max 0.4 (d.remaining - BOT_AUTO_DELIVERY_REDUCTION)
        { d with remaining := r }
      else d),
    auto_bot_charge := st.auto_bot_charge - 1 }

/-- The auto-bot `while self.auto_bot_charge >= 1.0 and self.deliveries`
loop; each iteration lowers the charge by exactly one, so a fuel of
`⌊charge⌋` iterations is exactly the number the `while` performs. -/
def botLoop : ℕ → FactorySim → FactorySim
  | 0, st => st
  | n + 1, st =>
    if 1 ≤ st.auto_bot_charge ∧ st.deliveries ≠ [] then botLoop n (botStep st)
    else st

/-- Body of `for d in self.deliveries`: age the delivery and settle it
when `remaining` reaches 0 (on-time reward and reputation gain, or late
reward fraction and reputation loss). -/
def settleStep (dt late_penalty : ℚ) (acc : FactorySim × List Delivery)
    (d : Delivery) : FactorySim × List Delivery :=
  let st := acc.1
  let d1 := { d with elapsed := d.elapsed + dt, remaining := d.remaining - dt }
  if d1.remaining ≤ 0 then
    let st := { st with completed := st.completed + 1 }
    if d1.elapsed ≤ d1.sla then
      ({ st with ontime := st.ontime + 1, money := st.money + d1.reward,
                 total_revenue := st.total_revenue + d1.reward,
                 reputation := clamp (st.reputation + REPUTATION_GAIN_ONTIME) 0 100 },
       acc.2)
    else
      let late_reward := pyTrunc ((d1.reward : ℚ) * late_penalty)
      ({ st with money := st.money + late_reward,
                 total_revenue := st.total_revenue + late_reward,
                 reputation := clamp (st.reputation - REPUTATION_LOSS_LATE) 0 100 },
       acc.2)
  else (st, acc.2 ++ [d1])

/-- Tick phase (a): advance the global clock and the two spawn timers. -/
def tickClocks (dt : ℚ) (s0 : FactorySim) : FactorySim :=
  { s0 with time := s0.time + dt, spawn_timer := s0.spawn_timer + dt,
            order_spawn_timer := s0.order_spawn_timer + dt }

/-- Effective item-spawn interval (halved-ish under `double_spawn`). -/
def effectiveSpawnInterval (s : FactorySim) : ℚ :=
  if s.techGet "double_spawn" then
    ITEM_SPAWN_INTERVAL / DOUBLE_SPAWN_INTERVAL_DIVISOR
  else ITEM_SPAWN_INTERVAL

/-- Effective order-spawn interval (shrunk by commercial demand). -/
def effectiveOrderSpawnInterval (s : FactorySim) : ℚ :=
  let commercial_cfg := List.lookup s.commercial_strategy COMMERCIALS
  let demand_multiplier :=
    max 0.1 ((commercial_cfg.map CommercialCfg.demand_multiplier).getD 1)
  ORDER_SPAWN_INTERVAL / demand_multiplier

/-- Tick phase (b): interval-gated item and order spawning. -/
def tickSpawns (s : FactorySim) : FactorySim :=
  let s := if effectiveSpawnInterval s ≤ s.spawn_timer then
    FactorySim.spawnItem { s with spawn_timer := 0 } else s
  if effectiveOrderSpawnInterval s ≤ s.order_spawn_timer then
    FactorySim.spawnOrder { s with order_spawn_timer := 0 } else s

/-- Tick phase (c): hygiene fluctuation.  The Python `and` short-circuits,
so the random draw happens only when the cooldown has elapsed. -/
def tickHygiene (dt : ℚ) (s : FactorySim) : FactorySim :=
  let hygiene_recovery := HYGIENE_RECOVERY_RATE +
    (if s.techGet "hygiene_training" then HYGIENE_TRAINING_RECOVERY_BONUS else 0)
  if HYGIENE_EVENT_COOLDOWN < s.time - s.last_hygiene_event then
    let draw := s.rng.randomQ
    if draw.1 < HYGIENE_EVENT_CHANCE then
      let dmg := draw.2.uniformQ 8 20
      { s with rng := dmg.2, last_hygiene_event := s.time,
               hygiene := clamp (s.hygiene - dmg.1) 0 100 }
    else
      { s with rng := draw.2,
               hygiene := clamp (s.hygiene + dt * hygiene_recovery) 0 100 }
  else { s with hygiene := clamp (s.hygiene + dt * hygiene_recovery) 0 100 }

/-- Tick phase (d): the transport & processing pass over all items, then
the bottleneck metric recomputed from scratch. -/
def tickTransport (dt : ℚ) (s : FactorySim) : FactorySim :=
  let turbo := if s.techGet "turbo_belts" then TURBO_BELT_BONUS else 0
  let acc := s.items.foldl (stepItem dt turbo) ⟨s, 0, []⟩
  let s := { acc.st with items := acc.moved }
  let bneck :=
    clamp ((acc.blocked : ℚ) / ((max 1 s.items.length : ℕ) : ℚ) * 100) 0 100
  { s with bottleneck := bneck }

/-- Tick phase (f): auto-bot delivery acceleration. -/
def tickBots (dt : ℚ) (s : FactorySim) : FactorySim :=
  let docks := s.grid.foldl
    (fun (n : ℕ) row => n + row.countP (fun t => t.kind == BOT_DOCK)) 0
  if s.techGet "bots" ∧ 0 < docks then
    let s := { s with auto_bot_charge :=
      s.auto_bot_charge + dt * (BOT_AUTO_CHARGE_RATE * (docks : ℚ)) }
    botLoop s.auto_bot_charge.floor.toNat s
  else s

/-- Tick phase (g): expansion tier progression. -/
def tickExpansion (dt : ℚ) (s : FactorySim) : FactorySim :=
  let expansion_delivery_mult :=
    if s.techGet "franchise_system" then FRANCHISE_EXPANSION_BONUS else 1
  let s := { s with expansion_progress := s.expansion_progress +
    (dt * EXPANSION_PROGRESS_RATE) +
    ((s.completed : ℚ) * EXPANSION_DELIVERY_BONUS * expansion_delivery_mult) }
  let needed := EXPANSION_BASE_NEEDED * (s.expansion_level : ℚ)
  if needed ≤ s.expansion_progress then
    { s with expansion_progress := s.expansion_progress - needed,
             expansion_level := s.expansion_level + 1 }
  else s

/-- Tick phase (h): order SLA countdown; expired orders are dropped and
nothing else happens to them (no cash or reputation penalty appears in
this pass). -/
def tickOrderSla (dt : ℚ) (s : FactorySim) : FactorySim :=
  let nextOrders :=
    (s.orders.map (fun o => { o with remaining_sla := o.remaining_sla - dt })).filter
      (fun o => 0 < o.remaining_sla)
  { s with orders := nextOrders }

/-- Tick phase (i): delivery aging and settlement. -/
def tickDeliveries (dt : ℚ) (s : FactorySim) : FactorySim :=
  let late_penalty :=
    if s.techGet "priority_dispatch" then PRIORITY_DISPATCH_LATE_MULTIPLIER
    else LATE_DELIVERY_PENALTY
  let res := s.deliveries.foldl (settleStep dt late_penalty) (s, [])
  { res.1 with deliveries := res.2 }

/-- `FactorySim.tick(dt)`: the single per-call state transition, phases
in source order — clocks/timers, interval-gated spawns, hygiene, the
transport pass, research, auto-bots, expansion, order SLA countdown,
delivery settlement. -/
def tick (dt : ℚ) (s0 : FactorySim) : FactorySim :=
  tickDeliveries dt (tickOrderSla dt (tickExpansion dt (tickBots dt
    (FactorySim.processResearch (tickTransport dt (tickHygiene dt
      (tickSpawns (tickClocks dt s0))))))))

/-- Drive an engine through a sequence of `tick(dt)` calls. -/
def runTicks (s : FactorySim) (dts : List ℚ) : FactorySim :=
  dts.foldl (fun st dt => tick dt st) s

/-- The observable tuple compared by the spec's determinism property:
time, money, completed count, research points, item count. -/
def observables (s : FactorySim) : ℚ × ℤ × ℕ × ℚ × ℕ :=
  (s.time, s.money, s.completed, s.research_points, s.items.length)

/-- The reputation invariant: `reputation ∈ [0, 100]`. -/
def repInRange (s : FactorySim) : Prop :=
  0 ≤ s.reputation ∧ s.reputation ≤ 100

/-! ### Snapshot codec (`to_dict` / `from_dict`)

`to_dict` produces a JSON dict whose keys and value shapes are fixed by
the method itself, so the snapshot is modelled as a record with exactly
those fields.  `from_dict` is modelled on such well-shaped snapshots:
the `str()` / `int()` / `float()` coercions are identities there, while
every validity check (grid dimensions, unknown recipe / channel / tech
keys, the reputation gate of `set_order_channel`, the research-focus
guard, the 12-entry log bound) is kept. -/

structure SimDict where
  grid : List (List Tile)
  items : List Item
  deliveries : List Delivery
  orders : List Order
  time : ℚ
  spawn_timer : ℚ
  order_spawn_timer : ℚ
  hygiene : ℚ
  bottleneck : ℚ
  expansion_level : ℤ
  expansion_progress : ℚ
  research_points : ℚ
  tech_tree : List (String × Bool)
  auto_bot_charge : ℚ
  completed : ℕ
  ontime : ℕ
  money : ℤ
  waste : ℕ
  total_revenue : ℤ
  total_spend : ℤ
  event_log : List String
  last_hygiene_event : ℚ
  reputation : ℚ
  order_channel : String
  commercial_strategy : String
  research_focus : String
deriving DecidableEq, Repr

/-- `FactorySim.to_dict`. -/
def toDict (s : FactorySim) : SimDict :=
  { grid := s.grid, items := s.items, deliveries := s.deliveries,
    orders := s.orders, time := s.time, spawn_timer := s.spawn_timer,
    order_spawn_timer := s.order_spawn_timer, hygiene := s.hygiene,
    bottleneck := s.bottleneck, expansion_level := s.expansion_level,
    expansion_progress := s.expansion_progress,
    research_points := s.research_points, tech_tree := s.tech_tree,
    auto_bot_charge := s.auto_bot_charge, completed := s.completed,
    ontime := s.ontime, money := s.money, waste := s.waste,
    total_revenue := s.total_revenue, total_spend := s.total_spend,
    event_log := s.event_log, last_hygiene_event := s.last_hygiene_event,
    reputation := s.reputation, order_channel := s.order_channel,
    commercial_strategy := s.commercial_strategy,
    research_focus := s.research_focus }

/-- Tile reconstruction inside `from_dict` (the coercions are identities
on a well-shaped snapshot). -/
def normTile (t : Tile) : Tile :=
  { kind := t.kind, rot := t.rot, hygiene_penalty := t.hygiene_penalty }

/-- `_normalize_item_state` on a well-shaped snapshot (the legacy
`cooked` / integer-stage branches do not fire on `to_dict` output). -/
def normItem (i : Item) : Item :=
  { x := i.x, y := i.y, progress := i.progress, stage := i.stage,
    delivery_boost := i.delivery_boost, ingredient_type := i.ingredient_type,
    recipe_key := i.recipe_key }

/-- `_normalize_delivery_state`: unknown recipe keys fall back to the
default recipe; `late_reward_multiplier` is not in the normalized field
set, so the dataclass default 1 is used. -/
def normDelivery (d : Delivery) : Delivery :=
  let recipe_key :=
    if (List.lookup d.recipe_key RECIPES).isSome then d.recipe_key
    else "margherita"
  { mode := d.mode, remaining := d.remaining, elapsed := d.elapsed,
    sla := d.sla, duration := d.duration, recipe_key := recipe_key,
    reward := d.reward, late_reward_multiplier := 1 }

/-- `_normalize_order_state`: unknown recipe / channel keys fall back. -/
def normOrder (o : Order) : Order :=
  let recipe_key :=
    if (List.lookup o.recipe_key RECIPES).isSome then o.recipe_key
    else "margherita"
  let channel_key :=
    if (List.lookup o.channel_key ORDER_CHANNELS).isSome then o.channel_key
    else "delivery"
  { recipe_key := recipe_key, remaining_sla := o.remaining_sla,
    total_sla := o.total_sla, reward := o.reward, channel_key := channel_key }

/-- `FactorySim.from_dict`: rebuild from a fresh `cls()` (seed 7),
overwriting fields in source order; the order channel is restored through
`set_order_channel` (reputation-gated), the commercial strategy through
`set_commercial_strategy(..., charge=False)`, and the research focus only
when still locked with met prerequisites. -/
def fromDict (d : SimDict) : FactorySim :=
  let sim := init 7
  let grid_ok := d.grid.length == 15 && d.grid.all (fun row => row.length == 20)
  let sim := if grid_ok then { sim with grid := d.grid.map (List.map normTile) }
    else sim
  let sim := { sim with
    items := d.items.map normItem,
    deliveries := d.deliveries.map normDelivery,
    orders := d.orders.map normOrder,
    time := d.time, spawn_timer := d.spawn_timer,
    order_spawn_timer := d.order_spawn_timer, hygiene := d.hygiene,
    bottleneck := d.bottleneck, expansion_level := d.expansion_level,
    expansion_progress := d.expansion_progress,
    research_points := d.research_points,
    tech_tree := TECH_UNLOCK_COSTS.map
      (fun (tc : String × ℚ) => (tc.1, (List.lookup tc.1 d.tech_tree).getD false)),
    auto_bot_charge := d.auto_bot_charge, completed := d.completed,
    ontime := d.ontime, money := d.money, waste := d.waste,
    total_revenue := d.total_revenue, total_spend := d.total_spend,
    event_log := lastN 12 d.event_log,
    last_hygiene_event := d.last_hygiene_event,
    reputation := d.reputation }
  let sim := (sim.setOrderChannel d.order_channel).1
  let sim := (sim.setCommercialStrategy d.commercial_strategy false).1
  if d.research_focus ≠ "" ∧
      (List.lookup d.research_focus TECH_UNLOCK_COSTS).isSome ∧
      ¬ sim.techGet d.research_focus ∧
      sim.researchPrerequisitesMet d.research_focus then
    { sim with research_focus := d.research_focus }
  else sim

/-! ### Spec-side assembly matcher

Modelled from the spec: `simulation.py` has no ingredient-aware matcher
(its assembly table tags the head order unconditionally), but the spec and
the repository's own tests (`test_assembly_table_rejects_unmatched_ingredient`,
`test_recipe_required_products_helper`, ...) describe one built on
`INGREDIENT_TO_PRODUCTS` and `FactorySim._recipe_required_products`. -/

/-- Modelled from the spec: the full set of product ids a recipe requires
before baking — base + sauce + cheese + toppings, excluding post-oven
toppings (`FactorySim._recipe_required_products` in the tests). -/
def recipeRequiredProducts (r : Recipe) : List String :=
  r.base :: r.sauce :: r.cheese :: r.toppings

/-- Modelled from the spec: iterate pending orders oldest first and
return the recipe key of the first order whose required product set
intersects the producible-product set of the item's ingredient type;
`none` when no pending order matches. -/
def specAssemblyMatch (ingredient_type : String) (orders : List Order) :
    Option String :=
  let producible := (List.lookup ingredient_type INGREDIENT_TO_PRODUCTS).getD []
  (orders.find? (fun o =>
    match List.lookup o.recipe_key RECIPES with
    | some r => (recipeRequiredProducts r).any (fun p => producible.contains p)
    | none => false)).map Order.recipe_key

/-! ### Concrete scenario states used to settle the claims -/

/-- The scenario of the repository's own test
`test_assembly_table_rejects_unmatched_ingredient`: an assembly table at
(5, 7), one pending margherita order, and a processed pepperoni item
about to finish its dwell on the table. -/
def assemblyMismatchState : FactorySim :=
  let s := init 42
  { s with grid := gridSet s.grid 5 7 { kind := ASSEMBLY_TABLE, rot := 0 },
           orders := [{ recipe_key := "margherita", remaining_sla := 60,
                        total_sla := 60, reward := 12 }],
           items := [{ x := 5, y := 7, progress := 0.9, stage := "processed",
                       ingredient_type := "pepperoni" }] }

/-- A fresh engine with a single pending order whose SLA is about to
expire within the next tick. -/
def expiringOrderState : FactorySim :=
  let s := init 7
  { s with orders := [{ recipe_key := "margherita", remaining_sla := 0.01,
                        total_sla := 20, reward := 12,
                        channel_key := "takeaway" }] }

/-- A fresh engine with a single raw (not baked) item on the conveyor
cell (17, 7) directly feeding the sink at (18, 7), about to transition. -/
def rawItemAtSinkState : FactorySim :=
  let s := init 7
  { s with items := [{ x := 17, y := 7, progress := 0.95, stage := "raw",
                       ingredient_type := "flour" }] }

/-- A fresh engine whose completed-delivery counter is 5 (as after five
settled deliveries), used to probe `tick(0.0)`. -/
def completedFiveState : FactorySim := { init 7 with completed := 5 }

/-- A fresh engine that accumulated exactly the research cost of
`precision_cooking` and focused it, while its prerequisite `turbo_oven`
is still locked. -/
def focusPrecisionState : FactorySim :=
  { init 7 with research_points := 95, research_focus := "precision_cooking" }

/-- A state whose active order channel is `eat_in` while reputation has
dropped to 10 — below the channel's entry threshold of 25.  Such states
arise in play: switching to `eat_in` requires reputation ≥ 25 at switch
time only, and late deliveries afterwards lower reputation by 1.5 each
without touching the active channel. -/
def lowRepEatInState : FactorySim :=
  { init 7 with order_channel := "eat_in", reputation := 10 }

end FactorySim

end Pizzatorio

namespace Pizzatorio

open FactorySim

set_option maxRecDepth 100000
set_option maxHeartbeats 1000000

/-! ### Claim theorems -/

/-- C1 — determinism: two engines built with the same seed and driven by
the same sequence of `tick(dt)` calls reach identical observable state
(time, money, completed count, research points, item count).  The engine
is a pure function of its seed and tick sequence: all randomness flows
through the engine-owned seeded generator threaded through the state. -/
theorem engine_determinism (seed : ℕ) (dts : List ℚ) (e1 e2 : FactorySim)
    (h1 : e1 = init seed) (h2 : e2 = init seed) :
    observables (runTicks e1 dts) = observables (runTicks e2 dts) := by
  subst h1; subst h2; rfl

/-- Witness for C1 at seed 7 and a two-tick schedule. -/
theorem engine_determinism_witness :
    observables (runTicks (init 7) [0.1, 0.2]) =
      observables (runTicks (init 7) [0.1, 0.2]) :=
  engine_determinism 7 [0.1, 0.2] (init 7) (init 7) rfl rfl

/-- C2 — the tick pass does NOT perform the ingredient-compatibility
match the claim describes: on the repository's own test scenario
(`test_assembly_table_rejects_unmatched_ingredient` — a processed
pepperoni item finishing its dwell on an assembly table with one pending
margherita order) the code tags the item with the head order's
`recipe_key` "margherita" even though the spec-side matcher (margherita
requires no pepperoni product) yields no match and both the spec and the
test demand the item stay untagged. -/
theorem assemblyTag_ignores_ingredient_compat :
    (tick 0.2 assemblyMismatchState).items.map Item.recipe_key =
      ["margherita"] ∧
    specAssemblyMatch "pepperoni" assemblyMismatchState.orders = none := by
  with_unfolding_all decide

/-- C3 — an order whose `remaining_sla` reaches ≤ 0 during a tick is
removed from the pending set, but NO missed-order penalty is applied:
money, reputation and total spend are all unchanged, even though
`config.py` defines `REPUTATION_LOSS_MISSED_ORDER` and
`MISSED_ORDER_CASH_PENALTY_MULTIPLIER` precisely for this event. -/
theorem expiredOrder_dropped_without_penalty :
    (tick 0.1 expiringOrderState).orders = [] ∧
    (tick 0.1 expiringOrderState).money = expiringOrderState.money ∧
    (tick 0.1 expiringOrderState).reputation =
      expiringOrderState.reputation ∧
    (tick 0.1 expiringOrderState).total_spend =
      expiringOrderState.total_spend ∧
    REPUTATION_LOSS_MISSED_ORDER = 1 ∧
    MISSED_ORDER_CASH_PENALTY_MULTIPLIER = 0.25 := by
  with_unfolding_all decide

/-- C4 counterexample — a raw (non-baked) item transitioning into the
sink tile is NOT discarded: the waste counter stays 0, money is
untouched, and the item comes to rest ON the sink tile (18, 7), alive in
the item set, contradicting the claim that it is discarded as waste and
never rests on the sink. -/
theorem unbaked_item_rests_on_sink_cex :
    (tileAt rawItemAtSinkState.grid 18 7).kind = SINK ∧
    rawItemAtSinkState.items.map Item.stage = ["raw"] ∧
    (tick 0.1 rawItemAtSinkState).waste = rawItemAtSinkState.waste ∧
    (tick 0.1 rawItemAtSinkState).money = rawItemAtSinkState.money ∧
    (tick 0.1 rawItemAtSinkState).items.map (fun i => (i.x, i.y, i.stage)) =
      [(18, 7, "raw")] := by
  with_unfolding_all decide

/-- C4 amended — what actually happens when an item attempts a cell
transition into an in-bounds sink tile with a non-baked stage and no
colliding moved item: the engine state is untouched (waste, money and
every other field unchanged) and the item simply moves onto the sink
tile, staying in the live set. -/
theorem unbaked_item_enters_sink_amended (acc : TickAcc) (item : Item)
    (nx ny : ℤ)
    (hbounds : 0 ≤ nx ∧ nx < GRID_W ∧ 0 ≤ ny ∧ ny < GRID_H)
    (hsink : (tileAt acc.st.grid nx ny).kind = SINK)
    (hstage : item.stage ≠ "baked")
    (hfree : acc.moved.any (fun o => o.x = nx ∧ o.y = ny) = false) :
    finishMove acc item nx ny =
      { acc with moved := acc.moved ++ [{ item with x := nx, y := ny }] } := by
  unfold finishMove
  rw [if_neg (not_not_intro hbounds)]
  simp only []
  have h2 : ¬((tileAt acc.st.grid nx ny).kind = SINK ∧ item.stage = "baked") :=
    fun h => hstage h.2
  rw [if_neg h2]
  have h3 : (tileAt acc.st.grid nx ny).kind ≠ EMPTY := by
    rw [hsink]; decide
  rw [if_neg h3]
  rw [if_neg (by rw [hfree]; exact Bool.false_ne_true)]

/-- Witness for the C4 amendment: a raw item stepping from the conveyor
cell (17, 7) into the static world's sink at (18, 7). -/
theorem unbaked_item_enters_sink_amended_witness :
    (tileAt (init 7).grid 18 7).kind = SINK ∧
    finishMove { st := init 7, blocked := 0, moved := [] }
        { x := 17, y := 7, progress := 0, stage := "raw",
          delivery_boost := 0, ingredient_type := "flour", recipe_key := "" }
        18 7 =
      { st := init 7, blocked := 0,
        moved := [{ x := 18, y := 7, progress := 0, stage := "raw",
                    delivery_boost := 0, ingredient_type := "flour",
                    recipe_key := "" }] } :=
  ⟨by with_unfolding_all decide,
   unbaked_item_enters_sink_amended
     { st := init 7, blocked := 0, moved := [] }
     { x := 17, y := 7, progress := 0, stage := "raw",
       delivery_boost := 0, ingredient_type := "flour", recipe_key := "" }
     18 7 (by decide) (by with_unfolding_all decide) (by decide) (by decide)⟩

/-- Helper: looking a key up in `techAssign k v l` at a different key
gives the original association. -/
theorem lookup_techAssign_ne (t k : String) (v : Bool)
    (l : List (String × Bool)) (hne : t ≠ k) :
    List.lookup t (techAssign k v l) = List.lookup t l := by
  have hbk : (t == k) = false := beq_eq_false_iff_ne.mpr hne
  induction l with
  | nil => simp [techAssign, List.lookup, hbk]
  | cons hd tl ih =>
    rcases hd with ⟨a, b⟩
    by_cases hak : a = k
    · subst hak
      simp [techAssign, List.lookup, hbk]
    · by_cases hta : t = a
      · subst hta
        simp [techAssign, List.lookup, hak, beq_self_eq_true]
      · have hba : (t == a) = false := beq_eq_false_iff_ne.mpr hta
        simp [techAssign, List.lookup, hak, hba, ih]

/-- Helper: `try_unlock_research_focus` either leaves the state unchanged
and reports failure, or reports success. -/
theorem tryUnlock_cases (s : FactorySim) :
    s.tryUnlockResearchFocus = (s, false) ∨
    (s.tryUnlockResearchFocus).2 = true := by
  unfold tryUnlockResearchFocus
  split
  · split
    · exact Or.inl rfl
    · split
      · exact Or.inl rfl
      · split
        · exact Or.inr rfl
        · exact Or.inl rfl
  · exact Or.inl rfl

/-- Helper: the focus-unlock path never sets the flag of a technology `t`
whose prerequisites are not all unlocked, if it was unset. -/
theorem tryUnlock_techGet_false (s : FactorySim) (t : String)
    (htl : s.techGet t = false)
    (hpre : s.researchPrerequisitesMet t = false) :
    (s.tryUnlockResearchFocus).1.techGet t = false := by
  unfold tryUnlockResearchFocus
  split
  case isTrue hcond =>
    split
    case isTrue => exact htl
    case isFalse hpm =>
      split
      case h_1 => exact htl
      case h_2 focus_cost hlk =>
        split
        case isTrue =>
          by_cases hft : s.research_focus = t
          · exfalso
            rw [hft] at hpm
            exact hpm (by simp [hpre])
          · simpa [techGet, logEvent] using
              (lookup_techAssign_ne t s.research_focus true s.tech_tree
                (fun he => hft he.symm)).symm ▸ htl
        case isFalse => exact htl
  case isFalse => exact htl

/-- Helper: one background-unlock step never sets the flag of a
technology whose snapshot prerequisites are unmet, if it was unset. -/
theorem researchStep_techGet_false (snapshot : List (String × Bool))
    (t : String) (st : FactorySim) (tc : String × ℚ)
    (hsnap : snapshotPrereqsMet snapshot t = false)
    (h : st.techGet t = false) :
    (researchStep snapshot st tc).techGet t = false := by
  unfold researchStep
  split
  · exact h
  · split
    case isTrue => exact h
    case isFalse hpm =>
      split
      case isTrue =>
        by_cases hkt : tc.1 = t
        · exfalso
          rw [hkt] at hpm
          exact hpm (by simp [hsnap])
        · simpa [techGet, logEvent] using
            (lookup_techAssign_ne t tc.1 true st.tech_tree
              (fun he => hkt he.symm)).symm ▸ h
      case isFalse => exact h

/-- Helper: the whole background-unlock fold never sets the flag of a
technology whose snapshot prerequisites are unmet, if it was unset. -/
theorem foldl_researchStep_techGet_false (snapshot : List (String × Bool))
    (t : String) (hsnap : snapshotPrereqsMet snapshot t = false) :
    ∀ (l : List (String × ℚ)) (st : FactorySim), st.techGet t = false →
      (l.foldl (researchStep snapshot) st).techGet t = false := by
  intro l
  induction l with
  | nil => intro st h; exact h
  | cons hd tl ih =>
    intro st h
    exact ih _ (researchStep_techGet_false snapshot t st hd hsnap h)

/-- C8 — prerequisite gating: for any technology `t` with a prerequisite
`p` currently locked, neither the focus-unlock path nor the whole
research pass (focus attempt followed by the background auto-unlock
loop, which checks prerequisites against the pass-start snapshot) ever
sets `t`'s unlocked flag, regardless of accumulated research points. -/
theorem research_prereq_gating (s : FactorySim) (t p : String)
    (hp : p ∈ ((List.lookup t RESEARCH).map ResearchCfg.prerequisites).getD [])
    (hpl : s.techGet p = false)
    (htl : s.techGet t = false) :
    (s.tryUnlockResearchFocus).1.techGet t = false ∧
    (s.processResearch).techGet t = false := by
  have hpre : s.researchPrerequisitesMet t = false := by
    unfold researchPrerequisitesMet
    simp only [List.all_eq_false]
    exact ⟨p, hp, by simp [hpl]⟩
  refine ⟨tryUnlock_techGet_false s t htl hpre, ?_⟩
  unfold processResearch
  rcases tryUnlock_cases s with hc | hc
  · rw [hc]
    have hsnap : snapshotPrereqsMet s.tech_tree t = false := hpre
    exact foldl_researchStep_techGet_false s.tech_tree t hsnap
      TECH_UNLOCK_COSTS s htl
  · rcases hEq : s.tryUnlockResearchFocus with ⟨s1, b⟩
    rw [hEq] at hc
    simp only at hc
    subst hc
    have h1 := tryUnlock_techGet_false s t htl hpre
    rw [hEq] at h1
    exact h1

/-- Witness for C8: a fresh engine focused on `precision_cooking` with
research points exactly equal to its cost (95) while its prerequisite
`turbo_oven` is still locked — the pass leaves it locked. -/
theorem research_prereq_gating_witness :
    focusPrecisionState.research_points = 95 ∧
    List.lookup "precision_cooking" TECH_UNLOCK_COSTS = some 95 ∧
    (focusPrecisionState.processResearch).techGet "precision_cooking" =
      false :=
  ⟨by with_unfolding_all decide, by with_unfolding_all decide,
   (research_prereq_gating focusPrecisionState "precision_cooking"
     "turbo_oven" (by with_unfolding_all decide)
     (by with_unfolding_all decide) (by with_unfolding_all decide)).2⟩

/-- Helper: `clamp` is the identity inside the bounds. -/
theorem clamp_eq_self (v lo hi : ℚ) (h1 : lo ≤ v) (h2 : v ≤ hi) :
    clamp v lo hi = v := by
  unfold clamp
  rw [min_eq_right h2, max_eq_right h1]

/-- Helper: a value found by `List.lookup` satisfies any property all the
list's values satisfy. -/
theorem lookup_forall {β : Type} (p : β → Prop) :
    ∀ (l : List (String × β)), (∀ x ∈ l, p x.2) → ∀ (k : String) (v : β),
      List.lookup k l = some v → p v := by
  intro l
  induction l with
  | nil =>
    intro _ k v h
    simp [List.lookup] at h
  | cons hd tl ih =>
    intro hall k v h
    rcases hd with ⟨a, b⟩
    rw [List.lookup] at h
    by_cases hk : (k == a) = true
    · simp only [hk] at h
      cases h
      exact hall ⟨a, v⟩ (by simp)
    · have hk2 : (k == a) = false := by simpa using hk
      simp only [hk2] at h
      exact ih (fun x hx => hall x (by simp [hx])) k v h

/-- Helper: every technology cost in the catalog is at least 12. -/
theorem tech_costs_ge_12 : ∀ x ∈ TECH_UNLOCK_COSTS, (12 : ℚ) ≤ x.2 := by
  with_unfolding_all decide

/-- Helper: with fewer than 12 research points (the cheapest cost), the
focus-unlock attempt does nothing. -/
theorem tryUnlock_of_points_lt (s : FactorySim)
    (h : s.research_points < 12) :
    s.tryUnlockResearchFocus = (s, false) := by
  unfold tryUnlockResearchFocus
  split
  · split
    · rfl
    · split
      · rfl
      next c hlk =>
        split
        next hcle =>
          exfalso
          have h12 : (12 : ℚ) ≤ c :=
            lookup_forall (fun v => (12 : ℚ) ≤ v) TECH_UNLOCK_COSTS
              tech_costs_ge_12 _ _ hlk
          linarith
        next => rfl
  · rfl

/-- Helper: with fewer than 12 research points, one background-unlock
step does nothing. -/
theorem researchStep_id_of_points_lt (snapshot : List (String × Bool))
    (st : FactorySim) (tc : String × ℚ) (hc : (12 : ℚ) ≤ tc.2)
    (h : st.research_points < 12) : researchStep snapshot st tc = st := by
  unfold researchStep
  split
  · rfl
  · split
    · rfl
    · split
      next hcle => exfalso; linarith
      next => rfl

/-- Helper: with fewer than 12 research points, the background-unlock
fold does nothing. -/
theorem foldl_researchStep_id (snapshot : List (String × Bool)) :
    ∀ (l : List (String × ℚ)), (∀ x ∈ l, (12 : ℚ) ≤ x.2) →
      ∀ (st : FactorySim), st.research_points < 12 →
        l.foldl (researchStep snapshot) st = st := by
  intro l
  induction l with
  | nil => intro _ st _; rfl
  | cons hd tl ih =>
    intro hall st h
    rw [List.foldl_cons,
      researchStep_id_of_points_lt snapshot st hd (hall hd (by simp)) h]
    exact ih (fun x hx => hall x (by simp [hx])) st h

/-- Helper: with fewer than 12 research points, the whole research pass
does nothing. -/
theorem processResearch_of_points_lt (s : FactorySim)
    (h : s.research_points < 12) : s.processResearch = s := by
  unfold processResearch
  rw [tryUnlock_of_points_lt s h]
  exact foldl_researchStep_id s.tech_tree TECH_UNLOCK_COSTS
    tech_costs_ge_12 s h

/-- Helper: `tick(0)` phase (a) — the clocks do not move. -/
theorem tickClocks_zero (s : FactorySim) : tickClocks 0 s = s := by
  unfold tickClocks
  simp only [add_zero]

/-- Helper: with both spawn timers strictly below their effective
intervals, the spawn phase does nothing. -/
theorem tickSpawns_id (s : FactorySim)
    (hspawn : s.spawn_timer < effectiveSpawnInterval s)
    (horder : s.order_spawn_timer < effectiveOrderSpawnInterval s) :
    tickSpawns s = s := by
  unfold tickSpawns
  rw [if_neg (not_le.mpr hspawn), if_neg (not_le.mpr horder)]

/-- Helper: `tick(0)` phase (c) — with the cooldown not yet elapsed and
hygiene in bounds, the hygiene phase does nothing. -/
theorem tickHygiene_zero (s : FactorySim)
    (hcool : s.time - s.last_hygiene_event ≤ HYGIENE_EVENT_COOLDOWN)
    (hhyg0 : 0 ≤ s.hygiene) (hhyg1 : s.hygiene ≤ 100) :
    tickHygiene 0 s = s := by
  unfold tickHygiene
  dsimp only
  rw [if_neg (not_lt.mpr hcool), zero_mul, add_zero,
    clamp_eq_self s.hygiene 0 100 hhyg0 hhyg1]

/-- Helper: `tick(0)` transport step — an item whose progress is below 1
is carried over unchanged. -/
theorem stepItem_zero (turbo : ℚ) (acc : TickAcc) (i : Item)
    (h : i.progress < 1) :
    stepItem 0 turbo acc i = { acc with moved := acc.moved ++ [i] } := by
  unfold stepItem
  dsimp only
  rw [zero_mul, add_zero]
  rw [if_pos h]

/-- Helper: `tick(0)` transport fold — all items below progress 1 are
carried over in order. -/
theorem foldl_stepItem_zero (turbo : ℚ) :
    ∀ (l : List Item), (∀ i ∈ l, i.progress < 1) → ∀ (acc : TickAcc),
      l.foldl (stepItem 0 turbo) acc = { acc with moved := acc.moved ++ l } := by
  intro l
  induction l with
  | nil =>
    intro _ acc
    cases acc
    simp
  | cons hd tl ih =>
    intro hall acc
    rw [List.foldl_cons, stepItem_zero turbo acc hd (hall hd (by simp)),
      ih (fun i hi => hall i (by simp [hi]))]
    cases acc
    simp

/-- Helper: `tick(0)` phase (d) — nothing moves, and the bottleneck is
recomputed to 0. -/
theorem tickTransport_zero (s : FactorySim)
    (hitems : ∀ i ∈ s.items, i.progress < 1) :
    tickTransport 0 s = { s with bottleneck := 0 } := by
  unfold tickTransport
  dsimp only
  rw [foldl_stepItem_zero _ s.items hitems ⟨s, 0, []⟩]
  dsimp only
  rw [List.nil_append]
  have hb : clamp (((0 : ℕ) : ℚ) / ((max 1 s.items.length : ℕ) : ℚ) * 100) 0 100 = 0 := by
    rw [Nat.cast_zero, zero_div, zero_mul]
    unfold clamp
    rw [min_eq_right (by norm_num : (0 : ℚ) ≤ 100), max_self]
  rw [hb]

/-- Helper: `tick(0)` phase (f) — with charge below one bot cycle, the
auto-bot phase does nothing. -/
theorem tickBots_zero (s : FactorySim) (hbot : s.auto_bot_charge < 1) :
    tickBots 0 s = s := by
  unfold tickBots
  dsimp only
  split
  · rw [zero_mul, add_zero]
    show botLoop s.auto_bot_charge.floor.toNat s = s
    have hfl : s.auto_bot_charge.floor ≤ 0 := by
      by_contra hpos
      push_neg at hpos
      have h1 : (1 : ℤ) ≤ Rat.floor s.auto_bot_charge := hpos
      have h2 := Rat.le_floor.mp h1
      rw [Int.cast_one] at h2
      linarith
    rw [Int.toNat_eq_zero.mpr hfl]
    rfl
  · rfl

/-- Helper: `tick(0)` phase (g) — expansion progress still grows by the
completed-delivery bonus; with the threshold unreached the tier is
unchanged. -/
theorem tickExpansion_zero (s : FactorySim)
    (hexp : s.expansion_progress + (s.completed : ℚ) *
        EXPANSION_DELIVERY_BONUS *
        (if s.techGet "franchise_system" then FRANCHISE_EXPANSION_BONUS
         else 1) <
      EXPANSION_BASE_NEEDED * (s.expansion_level : ℚ)) :
    tickExpansion 0 s = { s with expansion_progress :=
      s.expansion_progress + (s.completed : ℚ) * EXPANSION_DELIVERY_BONUS *
        (if s.techGet "franchise_system" then FRANCHISE_EXPANSION_BONUS
         else 1) } := by
  unfold tickExpansion
  dsimp only
  rw [zero_mul, add_zero]
  rw [if_neg (not_le.mpr hexp)]

/-- Helper: `tick(0)` phase (h) — with every pending order's SLA still
positive, the countdown drops nothing. -/
theorem tickOrderSla_zero (s : FactorySim)
    (hsla : ∀ o ∈ s.orders, 0 < o.remaining_sla) :
    tickOrderSla 0 s = s := by
  unfold tickOrderSla
  dsimp only
  have h1 : ∀ o ∈ s.orders,
      ({ o with remaining_sla := o.remaining_sla - 0 } : Order) = o := by
    intro o _
    cases o
    dsimp only
    rw [sub_zero]
  rw [List.map_congr_left h1, List.map_id']
  have h2 : s.orders.filter (fun o => 0 < o.remaining_sla) = s.orders :=
    List.filter_eq_self.mpr (fun o ho => by simp [hsla o ho])
  rw [h2]

/-- Helper: `tick(0)` settlement step — a delivery with positive
remaining time is kept unchanged. -/
theorem settleStep_zero (lp : ℚ) (acc : FactorySim × List Delivery)
    (d : Delivery) (h : 0 < d.remaining) :
    settleStep 0 lp acc d = (acc.1, acc.2 ++ [d]) := by
  unfold settleStep
  dsimp only
  rw [add_zero, sub_zero]
  rw [if_neg (not_le.mpr h)]

/-- Helper: `tick(0)` settlement fold — all deliveries are kept. -/
theorem foldl_settleStep_zero (lp : ℚ) :
    ∀ (l : List Delivery), (∀ d ∈ l, 0 < d.remaining) →
      ∀ (acc : FactorySim × List Delivery),
        l.foldl (settleStep 0 lp) acc = (acc.1, acc.2 ++ l) := by
  intro l
  induction l with
  | nil =>
    intro _ acc
    cases acc
    simp
  | cons hd tl ih =>
    intro hall acc
    rw [List.foldl_cons, settleStep_zero lp acc hd (hall hd (by simp)),
      ih (fun d hd2 => hall d (by simp [hd2]))]
    simp

/-- Helper: `tick(0)` phase (i) — with every delivery's remaining time
positive, the settlement phase does nothing. -/
theorem tickDeliveries_zero (s : FactorySim)
    (hdel : ∀ d ∈ s.deliveries, 0 < d.remaining) :
    tickDeliveries 0 s = s := by
  unfold tickDeliveries
  dsimp only
  rw [foldl_settleStep_zero _ s.deliveries hdel (s, [])]
  dsimp only
  rw [List.nil_append]

/-- C5 amended — what `tick(0.0)` actually does on a quiescent state
(hygiene cooldown not elapsed, hygiene in bounds, all item progress
below 1, spawn timers below their intervals, all order SLAs and delivery
timers positive, research points below the cheapest cost, bot charge
below 1, expansion threshold unreached): every listed observable is
unchanged EXCEPT that the bottleneck is recomputed to 0 and the
expansion progress unconditionally grows by
`completed × EXPANSION_DELIVERY_BONUS × franchise-multiplier` — so
`tick(0.0)` is NOT a no-op whenever `completed > 0`. -/
theorem tick_zero_effect_amended (s : FactorySim)
    (hcool : s.time - s.last_hygiene_event ≤ HYGIENE_EVENT_COOLDOWN)
    (hhyg0 : 0 ≤ s.hygiene) (hhyg1 : s.hygiene ≤ 100)
    (hitems : ∀ i ∈ s.items, i.progress < 1)
    (hspawn : s.spawn_timer < effectiveSpawnInterval s)
    (horder : s.order_spawn_timer < effectiveOrderSpawnInterval s)
    (hsla : ∀ o ∈ s.orders, 0 < o.remaining_sla)
    (hdel : ∀ d ∈ s.deliveries, 0 < d.remaining)
    (hrp : s.research_points < 12)
    (hbot : s.auto_bot_charge < 1)
    (hexp : s.expansion_progress + (s.completed : ℚ) *
        EXPANSION_DELIVERY_BONUS *
        (if s.techGet "franchise_system" then FRANCHISE_EXPANSION_BONUS
         else 1) <
      EXPANSION_BASE_NEEDED * (s.expansion_level : ℚ)) :
    (tick 0 s).time = s.time ∧
    (tick 0 s).spawn_timer = s.spawn_timer ∧
    (tick 0 s).order_spawn_timer = s.order_spawn_timer ∧
    (tick 0 s).hygiene = s.hygiene ∧
    (tick 0 s).items = s.items ∧
    (tick 0 s).orders = s.orders ∧
    (tick 0 s).deliveries = s.deliveries ∧
    (tick 0 s).money = s.money ∧
    (tick 0 s).research_points = s.research_points ∧
    (tick 0 s).reputation = s.reputation ∧
    (tick 0 s).completed = s.completed ∧
    (tick 0 s).ontime = s.ontime ∧
    (tick 0 s).waste = s.waste ∧
    (tick 0 s).total_revenue = s.total_revenue ∧
    (tick 0 s).total_spend = s.total_spend ∧
    (tick 0 s).expansion_progress = s.expansion_progress +
      (s.completed : ℚ) * EXPANSION_DELIVERY_BONUS *
        (if s.techGet "franchise_system" then FRANCHISE_EXPANSION_BONUS
         else 1) ∧
    (tick 0 s).bottleneck = 0 := by
  have e1 : tickClocks 0 s = s := tickClocks_zero s
  have e3 : tickHygiene 0 s = s := tickHygiene_zero s hcool hhyg0 hhyg1
  have e4 : tickTransport 0 s = { s with bottleneck := 0 } :=
    tickTransport_zero s hitems
  have e5 : FactorySim.processResearch { s with bottleneck := 0 } =
      { s with bottleneck := 0 } :=
    processResearch_of_points_lt _ hrp
  have e6 : tickBots 0 { s with bottleneck := 0 } =
      { s with bottleneck := 0 } := tickBots_zero _ hbot
  have e7 := tickExpansion_zero { s with bottleneck := 0 } hexp
  have e8 := tickOrderSla_zero
    ({ { s with bottleneck := 0 } with expansion_progress :=
      ({ s with bottleneck := 0 } : FactorySim).expansion_progress +
        (({ s with bottleneck := 0 } : FactorySim).completed : ℚ) *
          EXPANSION_DELIVERY_BONUS *
          (if ({ s with bottleneck := 0 } : FactorySim).techGet
              "franchise_system" then FRANCHISE_EXPANSION_BONUS else 1) })
    (fun o ho => hsla o ho)
  have e9 := tickDeliveries_zero
    ({ { s with bottleneck := 0 } with expansion_progress :=
      ({ s with bottleneck := 0 } : FactorySim).expansion_progress +
        (({ s with bottleneck := 0 } : FactorySim).completed : ℚ) *
          EXPANSION_DELIVERY_BONUS *
          (if ({ s with bottleneck := 0 } : FactorySim).techGet
              "franchise_system" then FRANCHISE_EXPANSION_BONUS else 1) })
    (fun d hd => hdel d hd)
  unfold tick
  rw [e1, tickSpawns_id s hspawn horder, e3, e4, e5, e6, e7, e8, e9]
  exact ⟨rfl, rfl, rfl, rfl, rfl, rfl, rfl, rfl, rfl, rfl, rfl, rfl, rfl,
    rfl, rfl, rfl, rfl⟩

/-- Witness for the C5 amendment at a state with five completed
deliveries (expansion progress grows by 0.01 at `dt = 0`). -/
theorem tick_zero_effect_amended_witness :
    (tick 0 completedFiveState).time = completedFiveState.time :=
  (tick_zero_effect_amended completedFiveState
    (by with_unfolding_all decide) (by with_unfolding_all decide)
    (by with_unfolding_all decide) (by with_unfolding_all decide)
    (by with_unfolding_all decide) (by with_unfolding_all decide)
    (by with_unfolding_all decide) (by with_unfolding_all decide)
    (by with_unfolding_all decide)
    (by with_unfolding_all decide) (by with_unfolding_all decide)).1

/-- C5 counterexample — `tick(0.0)` is not a no-op: on a state with five
completed deliveries it increases `expansion_progress` by
`5 × EXPANSION_DELIVERY_BONUS = 0.01`. -/
theorem tick_zero_not_noop_cex :
    completedFiveState.expansion_progress = 0 ∧
    (tick 0 completedFiveState).expansion_progress = 1/100 := by
  with_unfolding_all decide

/-- C6 — `set_commercial_strategy` does NOT check the strategy's
`required_research`: with `franchise_system` still locked, switching a
fresh engine to the "franchise" strategy (whose catalog entry requires
that research) succeeds and debits the 180 activation cost, whereas the
claim, the spec and the repository's own test
(`test_franchise_requires_research_unlock`) demand the switch be
rejected with the state unchanged. -/
theorem commercial_switch_ignores_required_research :
    (init 7).techGet "franchise_system" = false ∧
    (List.lookup "franchise" COMMERCIALS).map CommercialCfg.required_research =
      some "franchise_system" ∧
    ((init 7).setCommercialStrategy "franchise" true).2 = true ∧
    ((init 7).setCommercialStrategy "franchise" true).1.commercial_strategy =
      "franchise" ∧
    ((init 7).setCommercialStrategy "franchise" true).1.money = 820 := by
  with_unfolding_all decide

/-- Helper: `clamp` into `[0, 100]` always lands in `[0, 100]`. -/
theorem clamp_mem_range (x : ℚ) : 0 ≤ clamp x 0 100 ∧ clamp x 0 100 ≤ 100 := by
  unfold clamp
  exact ⟨le_max_left 0 _, max_le (by norm_num) (min_le_left 100 x)⟩

/-- Helper: `_enqueue_delivery` keeps reputation in range (the eat-in
settlement clamps; every other path leaves reputation untouched). -/
theorem enqueueDelivery_rep (s : FactorySim) (o : Order)
    (h : repInRange s) : repInRange (enqueueDelivery s o) := by
  unfold enqueueDelivery
  split
  · exact clamp_mem_range _
  · exact h

/-- Helper: the sink-intake branch keeps reputation in range. -/
theorem sinkConsume_rep (st : FactorySim) (item : Item)
    (h : repInRange st) : repInRange (sinkConsume st item) := by
  unfold sinkConsume
  split
  · split
    · dsimp only
      split
      · exact enqueueDelivery_rep _ _ h
      · exact enqueueDelivery_rep _ _ h
    · exact h
  · dsimp only
    split
    · exact h
    · exact h

/-- Helper: movement resolution keeps reputation in range. -/
theorem finishMove_rep (acc : TickAcc) (item : Item) (nx ny : ℤ)
    (h : repInRange acc.st) : repInRange (finishMove acc item nx ny).st := by
  unfold finishMove
  dsimp only
  repeat' split
  all_goals first
  | exact h
  | exact sinkConsume_rep _ _ h

/-- Helper: two states with equal reputation satisfy the invariant
together. -/
theorem repInRange_congr {x y : FactorySim}
    (hxy : x.reputation = y.reputation) (h : repInRange y) : repInRange x :=
  ⟨hxy ▸ h.1, hxy ▸ h.2⟩

/-- Helper: the stage-transformation block never touches reputation. -/
theorem applyFlow_rep (st : FactorySim) (tile : Tile) (item2 : Item) :
    (applyFlow st tile item2).1.reputation = st.reputation := by
  unfold applyFlow
  split
  · split
    · rfl
    · rfl
  · rfl

/-- Helper: one transport-loop step keeps reputation in range. -/
theorem stepItem_rep (dt turbo : ℚ) (acc : TickAcc) (item : Item)
    (h : repInRange acc.st) : repInRange (stepItem dt turbo acc item).st := by
  unfold stepItem
  dsimp only
  repeat' split
  all_goals first
  | exact h
  | exact finishMove_rep _ _ _ _
      (repInRange_congr (applyFlow_rep _ _ _) h)
  | exact finishMove_rep _ _ _ _ h

/-- Helper: the whole transport fold keeps reputation in range. -/
theorem foldl_stepItem_rep (dt turbo : ℚ) :
    ∀ (l : List Item) (acc : TickAcc), repInRange acc.st →
      repInRange (l.foldl (stepItem dt turbo) acc).st := by
  intro l
  induction l with
  | nil => intro acc h; exact h
  | cons hd tl ih => intro acc h; exact ih _ (stepItem_rep dt turbo acc hd h)

/-- Helper: the transport phase keeps reputation in range. -/
theorem tickTransport_rep (dt : ℚ) (s : FactorySim)
    (h : repInRange s) : repInRange (tickTransport dt s) := by
  unfold tickTransport
  exact foldl_stepItem_rep _ _ s.items ⟨s, 0, []⟩ h

/-- Helper: delivery settlement of one delivery keeps reputation in
range. -/
theorem settleStep_rep (dt lp : ℚ) (acc : FactorySim × List Delivery)
    (d : Delivery) (h : repInRange acc.1) :
    repInRange (settleStep dt lp acc d).1 := by
  unfold settleStep
  dsimp only
  split
  · split
    · exact clamp_mem_range _
    · exact clamp_mem_range _
  · exact h

/-- Helper: the whole settlement fold keeps reputation in range. -/
theorem foldl_settleStep_rep (dt lp : ℚ) :
    ∀ (l : List Delivery) (acc : FactorySim × List Delivery),
      repInRange acc.1 → repInRange (l.foldl (settleStep dt lp) acc).1 := by
  intro l
  induction l with
  | nil => intro acc h; exact h
  | cons hd tl ih => intro acc h; exact ih _ (settleStep_rep dt lp acc hd h)

/-- Helper: the delivery phase keeps reputation in range. -/
theorem tickDeliveries_rep (dt : ℚ) (s : FactorySim)
    (h : repInRange s) : repInRange (tickDeliveries dt s) := by
  unfold tickDeliveries
  exact foldl_settleStep_rep _ _ s.deliveries (s, []) h

/-- Helper: a state literal whose reputation field is `s.reputation` has
reputation equal to `s`'s, whatever its other fields hold. -/
theorem rep_eq_of_fields (s : FactorySim) (v1 : PyRandom)
    (v2 : List (List Tile)) (v3 : List Item) (v4 : List Delivery)
    (v5 : List Order) (v6 v7 v8 v9 v10 : ℚ) (v11 : ℤ) (v12 v13 : ℚ)
    (v14 : List (String × Bool)) (v15 : ℚ) (v16 v17 : ℕ) (v18 : ℤ)
    (v19 : ℕ) (v20 v21 : ℤ) (v22 : List String) (v23 : ℚ)
    (v24 v25 v26 : String) :
    ({ rng := v1, grid := v2, items := v3, deliveries := v4, orders := v5,
       time := v6, spawn_timer := v7, order_spawn_timer := v8, hygiene := v9,
       bottleneck := v10, expansion_level := v11, expansion_progress := v12,
       research_points := v13, tech_tree := v14, auto_bot_charge := v15,
       completed := v16, ontime := v17, money := v18, waste := v19,
       total_revenue := v20, total_spend := v21, event_log := v22,
       last_hygiene_event := v23, reputation := s.reputation,
       order_channel := v24, commercial_strategy := v25,
       research_focus := v26 } : FactorySim).reputation = s.reputation := rfl

/-- Helper: item spawning never touches reputation. -/
theorem spawnItem_rep (s : FactorySim) :
    (spawnItem s).reputation = s.reputation := by
  unfold spawnItem
  apply rep_eq_of_fields

/-- Helper: order spawning never touches reputation. -/
theorem spawnOrder_rep (s : FactorySim) :
    (spawnOrder s).reputation = s.reputation := by
  unfold spawnOrder
  dsimp only
  split
  · rfl
  · apply rep_eq_of_fields

/-- Helper: the spawn phase never touches reputation. -/
theorem tickSpawns_rep (s : FactorySim) :
    (tickSpawns s).reputation = s.reputation := by
  have h1 : ∀ u : FactorySim,
      (if effectiveOrderSpawnInterval u ≤ u.order_spawn_timer then
        spawnOrder { u with order_spawn_timer := 0 } else u).reputation =
        u.reputation := by
    intro u
    split
    · rw [spawnOrder_rep]
    · rfl
  unfold tickSpawns
  rw [h1]
  split
  · rw [spawnItem_rep]
  · rfl

/-- Helper: the hygiene phase never touches reputation. -/
theorem tickHygiene_rep (dt : ℚ) (s : FactorySim) :
    (tickHygiene dt s).reputation = s.reputation := by
  unfold tickHygiene
  dsimp only
  repeat' split
  all_goals apply rep_eq_of_fields

/-- Helper: the focus-unlock attempt never touches reputation. -/
theorem tryUnlock_rep (s : FactorySim) :
    (s.tryUnlockResearchFocus).1.reputation = s.reputation := by
  unfold tryUnlockResearchFocus
  split
  · split
    · rfl
    · split
      · rfl
      · split
        · apply rep_eq_of_fields
        · rfl
  · rfl

/-- Helper: one background-unlock step never touches reputation. -/
theorem researchStep_rep (snapshot : List (String × Bool))
    (st : FactorySim) (tc : String × ℚ) :
    (researchStep snapshot st tc).reputation = st.reputation := by
  unfold researchStep
  split
  · rfl
  · split
    · rfl
    · split
      · apply rep_eq_of_fields
      · rfl

/-- Helper: the background-unlock fold never touches reputation. -/
theorem foldl_researchStep_rep (snapshot : List (String × Bool)) :
    ∀ (l : List (String × ℚ)) (st : FactorySim),
      (l.foldl (researchStep snapshot) st).reputation = st.reputation := by
  intro l
  induction l with
  | nil => intro st; rfl
  | cons hd tl ih =>
    intro st
    rw [List.foldl_cons, ih, researchStep_rep]

/-- Helper: the research phase never touches reputation. -/
theorem processResearch_rep (s : FactorySim) :
    (s.processResearch).reputation = s.reputation := by
  unfold processResearch
  rcases tryUnlock_cases s with hc | hc
  · rw [hc]
    exact foldl_researchStep_rep s.tech_tree TECH_UNLOCK_COSTS s
  · rcases hEq : s.tryUnlockResearchFocus with ⟨s1, b⟩
    rw [hEq] at hc
    simp only at hc
    subst hc
    have h1 := tryUnlock_rep s
    rw [hEq] at h1
    exact h1

/-- Helper: one auto-bot step never touches reputation. -/
theorem botStep_rep (st : FactorySim) :
    (botStep st).reputation = st.reputation := by
  unfold botStep
  apply rep_eq_of_fields

/-- Helper: the auto-bot loop never touches reputation. -/
theorem botLoop_rep : ∀ (n : ℕ) (st : FactorySim),
    (botLoop n st).reputation = st.reputation := by
  intro n
  induction n with
  | zero => intro st; rfl
  | succ m ih =>
    intro st
    unfold botLoop
    split
    · rw [ih, botStep_rep]
    · rfl

/-- Helper: the auto-bot phase never touches reputation. -/
theorem tickBots_rep (dt : ℚ) (s : FactorySim) :
    (tickBots dt s).reputation = s.reputation := by
  unfold tickBots
  dsimp only
  split
  · rw [botLoop_rep]
  · rfl

/-- Helper: the expansion phase never touches reputation. -/
theorem tickExpansion_rep (dt : ℚ) (s : FactorySim) :
    (tickExpansion dt s).reputation = s.reputation := by
  unfold tickExpansion
  dsimp only
  repeat' split
  all_goals apply rep_eq_of_fields

/-- Helper: the SLA-countdown phase never touches reputation (in
particular, expired orders cost no reputation). -/
theorem tickOrderSla_rep (dt : ℚ) (s : FactorySim) :
    (tickOrderSla dt s).reputation = s.reputation := by
  unfold tickOrderSla
  apply rep_eq_of_fields

/-- Helper: one full tick keeps reputation in range. -/
theorem tick_rep (dt : ℚ) (s : FactorySim) (h : repInRange s) :
    repInRange (tick dt s) := by
  unfold tick
  have hA : repInRange (tickHygiene dt (tickSpawns (tickClocks dt s))) := by
    unfold repInRange at h ⊢
    rw [tickHygiene_rep, tickSpawns_rep]
    exact h
  have hB := tickTransport_rep dt _ hA
  have hC : repInRange
      ((tickTransport dt (tickHygiene dt (tickSpawns
        (tickClocks dt s)))).processResearch) := by
    unfold repInRange at hB ⊢
    rw [processResearch_rep]
    exact hB
  have hD : repInRange (tickBots dt
      ((tickTransport dt (tickHygiene dt (tickSpawns
        (tickClocks dt s)))).processResearch)) := by
    unfold repInRange at hC ⊢
    rw [tickBots_rep]
    exact hC
  have hE : repInRange (tickExpansion dt (tickBots dt
      ((tickTransport dt (tickHygiene dt (tickSpawns
        (tickClocks dt s)))).processResearch))) := by
    unfold repInRange at hD ⊢
    rw [tickExpansion_rep]
    exact hD
  have hF : repInRange (tickOrderSla dt (tickExpansion dt (tickBots dt
      ((tickTransport dt (tickHygiene dt (tickSpawns
        (tickClocks dt s)))).processResearch)))) := by
    unfold repInRange at hE ⊢
    rw [tickOrderSla_rep]
    exact hE
  exact tickDeliveries_rep dt _ hF

/-- C7 — reputation bounds: from any state with reputation in [0, 100],
every sequence of `tick(dt)` calls (covering on-time deliveries, late
deliveries and eat-in settlements, all of which clamp) keeps reputation
within [0, 100] inclusive. -/
theorem reputation_bounds (s : FactorySim) (dts : List ℚ)
    (h0 : 0 ≤ s.reputation) (h1 : s.reputation ≤ 100) :
    0 ≤ (runTicks s dts).reputation ∧ (runTicks s dts).reputation ≤ 100 := by
  suffices h : ∀ (l : List ℚ) (u : FactorySim), repInRange u →
      repInRange (runTicks u l) from h dts s ⟨h0, h1⟩
  intro l
  induction l with
  | nil => intro u hu; exact hu
  | cons hd tl ih =>
    intro u hu
    exact ih (tick hd u) (tick_rep hd u hu)

/-- Witness for C7 at a fresh engine and a two-tick schedule. -/
theorem reputation_bounds_witness :
    0 ≤ (runTicks (init 7) [0.1, 0.2]).reputation ∧
      (runTicks (init 7) [0.1, 0.2]).reputation ≤ 100 :=
  reputation_bounds (init 7) [0.1, 0.2] (by with_unfolding_all decide)
    (by with_unfolding_all decide)

/-- C9 counterexample — round-tripping a state whose active channel is
`eat_in` while reputation (10) is below that channel's threshold (25)
does not reconstruct the active channel: `from_dict` re-applies the
reputation gate of `set_order_channel` and falls back to "delivery". -/
theorem roundtrip_channel_reset_cex :
    lowRepEatInState.order_channel = "eat_in" ∧
    0 ≤ lowRepEatInState.reputation ∧ lowRepEatInState.reputation ≤ 100 ∧
    (fromDict (toDict lowRepEatInState)).order_channel = "delivery" ∧
    (fromDict (toDict lowRepEatInState)).money = lowRepEatInState.money := by
  with_unfolding_all decide

/-- Helper: rebuilding an association list from its own key list by
lookup reproduces it (keys assumed distinct). -/
theorem techRebuild : ∀ (l : List (String × Bool)),
    (l.map Prod.fst).Nodup →
    (l.map Prod.fst).map (fun k => (k, (List.lookup k l).getD false)) = l := by
  intro l
  induction l with
  | nil =>
    intro _
    rfl
  | cons hd tl ih =>
    intro hnd
    rcases hd with ⟨a, b⟩
    simp only [List.map_cons] at hnd ⊢
    rw [List.nodup_cons] at hnd
    have hhead : List.lookup a ((a, b) :: tl) = some b := by
      simp [List.lookup]
    rw [hhead]
    have htail : ∀ k ∈ tl.map Prod.fst,
        (k, (List.lookup k ((a, b) :: tl)).getD false) =
          (k, (List.lookup k tl).getD false) := by
      intro k hk
      have hka : (k == a) = false := by
        rw [beq_eq_false_iff_ne]
        intro hcontra
        exact hnd.1 (hcontra ▸ hk)
      simp [List.lookup, hka]
    rw [List.map_congr_left htail]
    rw [ih hnd.2]
    rfl

/-- Helper: `set_order_channel` only ever touches the event log and the
active channel. -/
theorem setOrderChannel_shape (u : FactorySim) (c : String) :
    (u.setOrderChannel c).1 =
      { u with event_log := (u.setOrderChannel c).1.event_log,
               order_channel := (u.setOrderChannel c).1.order_channel } := by
  unfold setOrderChannel
  split
  · rfl
  · split
    · rfl
    · split
      · rfl
      · rfl

/-- Helper: when the channel exists in the catalog, `set_order_channel`
lands on it exactly when reputation meets the channel threshold, and on
the previous channel otherwise. -/
theorem setOrderChannel_channel (u : FactorySim) (c : String)
    (hc : (List.lookup c ORDER_CHANNELS).isSome = true) :
    (u.setOrderChannel c).1.order_channel =
      (if orderChannelMinReputation c ≤ u.reputation then c
       else u.order_channel) := by
  have hnn : ¬((List.lookup c ORDER_CHANNELS).isNone = true) := by
    rcases Option.isSome_iff_exists.mp hc with ⟨v, hv⟩
    rw [hv]
    simp
  by_cases hrep : orderChannelMinReputation c ≤ u.reputation
  · rw [if_pos hrep]
    have hunlock : u.orderChannelIsUnlocked c = true := by
      unfold orderChannelIsUnlocked
      rw [Bool.and_eq_true]
      exact ⟨hc, decide_eq_true hrep⟩
    unfold setOrderChannel
    rw [if_neg hnn, if_neg (by simp [hunlock])]
  · rw [if_neg hrep]
    have hunlock : u.orderChannelIsUnlocked c = false := by
      unfold orderChannelIsUnlocked
      simp [hrep]
    unfold setOrderChannel
    rw [if_neg hnn, if_pos (by simp [hunlock])]
    rfl

/-- Helper: `set_commercial_strategy` with `charge=False` only ever
touches the active strategy (no funds check, no debit, no log). -/
theorem setCommercial_false_shape (u : FactorySim) (c : String) :
    (u.setCommercialStrategy c false).1 =
      { u with commercial_strategy :=
          (u.setCommercialStrategy c false).1.commercial_strategy } := by
  unfold setCommercialStrategy
  split
  · rfl
  · split
    · rfl
    · split
      · next hcontra => simp at hcontra
      · rfl

/-- Helper: when the strategy exists in the catalog,
`set_commercial_strategy(c, charge=False)` always lands on `c`. -/
theorem setCommercial_false_strategy (u : FactorySim) (c : String)
    (hc : (List.lookup c COMMERCIALS).isSome = true) :
    (u.setCommercialStrategy c false).1.commercial_strategy = c := by
  rcases Option.isSome_iff_exists.mp hc with ⟨cfg, hcfg⟩
  unfold setCommercialStrategy
  rw [hcfg]
  dsimp only
  by_cases heq : c = u.commercial_strategy
  · rw [if_pos heq]
    exact heq.symm
  · rw [if_neg heq]
    rw [if_neg (by simp)]

/-- C9 amended — `from_dict(to_dict(s))` reconstructs the grid, the
item/order/delivery lists, every scalar counter, the technology flags,
the commercial strategy and the research focus exactly, for any state
satisfying the structural invariants every reachable state satisfies;
the active order channel alone is re-gated on reputation: it is restored
exactly when the saved reputation meets the channel's threshold, and
falls back to "delivery" otherwise. -/
theorem roundtrip_amended (s : FactorySim)
    (hgrid : s.grid.length = 15 ∧ ∀ row ∈ s.grid, row.length = 20)
    (htech : s.tech_tree.map Prod.fst = TECH_UNLOCK_COSTS.map Prod.fst)
    (hdel : ∀ d ∈ s.deliveries,
      (List.lookup d.recipe_key RECIPES).isSome = true ∧
        d.late_reward_multiplier = 1)
    (hord : ∀ o ∈ s.orders,
      (List.lookup o.recipe_key RECIPES).isSome = true ∧
        (List.lookup o.channel_key ORDER_CHANNELS).isSome = true)
    (hcomm : (List.lookup s.commercial_strategy COMMERCIALS).isSome = true)
    (hchan : (List.lookup s.order_channel ORDER_CHANNELS).isSome = true)
    (hfocus : s.research_focus = "" ∨
      ((List.lookup s.research_focus TECH_UNLOCK_COSTS).isSome = true ∧
        s.techGet s.research_focus = false ∧
        s.researchPrerequisitesMet s.research_focus = true)) :
    (fromDict (toDict s)).grid = s.grid ∧
    (fromDict (toDict s)).items = s.items ∧
    (fromDict (toDict s)).deliveries = s.deliveries ∧
    (fromDict (toDict s)).orders = s.orders ∧
    (fromDict (toDict s)).time = s.time ∧
    (fromDict (toDict s)).spawn_timer = s.spawn_timer ∧
    (fromDict (toDict s)).order_spawn_timer = s.order_spawn_timer ∧
    (fromDict (toDict s)).hygiene = s.hygiene ∧
    (fromDict (toDict s)).bottleneck = s.bottleneck ∧
    (fromDict (toDict s)).expansion_level = s.expansion_level ∧
    (fromDict (toDict s)).expansion_progress = s.expansion_progress ∧
    (fromDict (toDict s)).research_points = s.research_points ∧
    (fromDict (toDict s)).tech_tree = s.tech_tree ∧
    (fromDict (toDict s)).auto_bot_charge = s.auto_bot_charge ∧
    (fromDict (toDict s)).completed = s.completed ∧
    (fromDict (toDict s)).ontime = s.ontime ∧
    (fromDict (toDict s)).money = s.money ∧
    (fromDict (toDict s)).waste = s.waste ∧
    (fromDict (toDict s)).total_revenue = s.total_revenue ∧
    (fromDict (toDict s)).total_spend = s.total_spend ∧
    (fromDict (toDict s)).last_hygiene_event = s.last_hygiene_event ∧
    (fromDict (toDict s)).reputation = s.reputation ∧
    (fromDict (toDict s)).commercial_strategy = s.commercial_strategy ∧
    (fromDict (toDict s)).research_focus = s.research_focus ∧
    (fromDict (toDict s)).order_channel =
      (if orderChannelMinReputation s.order_channel ≤ s.reputation then
        s.order_channel else "delivery") := by
  have hg : (s.grid.length == 15 &&
      s.grid.all (fun row => row.length == 20)) = true := by
    rw [Bool.and_eq_true]
    exact ⟨beq_iff_eq.mpr hgrid.1,
      List.all_eq_true.mpr (fun row hr => beq_iff_eq.mpr (hgrid.2 row hr))⟩
  have hgm : s.grid.map (List.map normTile) = s.grid := by
    have h1 : ∀ row ∈ s.grid, List.map normTile row = row := by
      intro row _
      have h2 : ∀ t ∈ row, normTile t = t := by
        intro t _
        cases t
        rfl
      rw [List.map_congr_left h2, List.map_id']
    rw [List.map_congr_left h1, List.map_id']
  have him : s.items.map normItem = s.items := by
    have h1 : ∀ i ∈ s.items, normItem i = i := by
      intro i _
      cases i
      rfl
    rw [List.map_congr_left h1, List.map_id']
  have hdm : s.deliveries.map normDelivery = s.deliveries := by
    have h1 : ∀ d ∈ s.deliveries, normDelivery d = d := by
      intro d hd2
      unfold normDelivery
      dsimp only
      rw [if_pos (hdel d hd2).1]
      have h2 := (hdel d hd2).2
      rcases d with ⟨m, r, sl, du, rk, rw2, el, lrm⟩
      dsimp only at h2
      rw [h2]
    rw [List.map_congr_left h1, List.map_id']
  have hom : s.orders.map normOrder = s.orders := by
    have h1 : ∀ o ∈ s.orders, normOrder o = o := by
      intro o ho2
      unfold normOrder
      dsimp only
      rw [if_pos (hord o ho2).1, if_pos (hord o ho2).2]
    rw [List.map_congr_left h1, List.map_id']
  have hnodup : (TECH_UNLOCK_COSTS.map Prod.fst).Nodup := by
    with_unfolding_all decide
  have hnd2 : (s.tech_tree.map Prod.fst).Nodup := by
    rw [htech]
    exact hnodup
  have htt : TECH_UNLOCK_COSTS.map
      (fun tc : String × ℚ =>
        (tc.1, (List.lookup tc.1 s.tech_tree).getD false)) = s.tech_tree := by
    have h1 : TECH_UNLOCK_COSTS.map
        (fun tc : String × ℚ =>
          (tc.1, (List.lookup tc.1 s.tech_tree).getD false)) =
        (TECH_UNLOCK_COSTS.map Prod.fst).map
          (fun k => (k, (List.lookup k s.tech_tree).getD false)) := by
      rw [List.map_map]
      rfl
    rw [h1, ← htech, techRebuild s.tech_tree hnd2]
  have KEY : fromDict (toDict s) =
      { s with rng := (init 7).rng,
               event_log := (fromDict (toDict s)).event_log,
               order_channel :=
                 if orderChannelMinReputation s.order_channel ≤ s.reputation
                 then s.order_channel else "delivery" } := by
    unfold fromDict
    dsimp only [toDict]
    rw [if_pos hg, hgm, him, hdm, hom, htt]
    rw [setOrderChannel_shape, setCommercial_false_shape]
    split
    · next hcond =>
      rw [setOrderChannel_channel _ _ hchan,
        setCommercial_false_strategy _ _ hcomm]
      rcases hfocus with hfoc | ⟨hsome, hunl, hpre⟩
      · exact absurd hfoc hcond.1
      · dsimp only [init, logEvent]
    · next hcond =>
      rcases hfocus with hfoc | ⟨hsome, hunl, hpre⟩
      · simp only [hfoc]
        dsimp only [init, logEvent]
        rw [setOrderChannel_channel _ _ hchan,
          setCommercial_false_strategy _ _ hcomm]
      · have hne : s.research_focus ≠ "" := by
          intro he
          rw [he] at hsome
          have hnone : List.lookup "" TECH_UNLOCK_COSTS = none := by
            with_unfolding_all decide
          rw [hnone] at hsome
          simp at hsome
        exact absurd ⟨hne, hsome,
          fun hh => Bool.false_ne_true ((Eq.symm hunl).trans hh), hpre⟩ hcond
  rw [KEY]
  exact ⟨rfl, rfl, rfl, rfl, rfl, rfl, rfl, rfl, rfl, rfl, rfl, rfl,
    rfl, rfl, rfl, rfl, rfl, rfl, rfl, rfl, rfl, rfl, rfl, rfl, rfl⟩

/-- Witness for the C9 amendment: a fresh engine round-trips exactly
(its reputation 50 meets the active "delivery" channel's threshold 0). -/
theorem roundtrip_amended_witness :
    (fromDict (toDict (init 7))).money = (init 7).money ∧
    (fromDict (toDict (init 7))).order_channel =
      (if orderChannelMinReputation (init 7).order_channel ≤
          (init 7).reputation then (init 7).order_channel
       else "delivery") :=
  ⟨(roundtrip_amended (init 7) (by with_unfolding_all decide)
      (by with_unfolding_all decide) (by with_unfolding_all decide)
      (by with_unfolding_all decide) (by with_unfolding_all decide)
      (by with_unfolding_all decide)
      (Or.inl (by with_unfolding_all decide))).2.2.2.2.2.2.2.2.2.2.2.2.2.2.2.2.1,
   (roundtrip_amended (init 7) (by with_unfolding_all decide)
      (by with_unfolding_all decide) (by with_unfolding_all decide)
      (by with_unfolding_all decide) (by with_unfolding_all decide)
      (by with_unfolding_all decide)
      (Or.inl (by with_unfolding_all decide))).2.2.2.2.2.2.2.2.2.2.2.2.2.2.2.2.2.2.2.2.2.2.2.2⟩

/-- C10 — the `ontime_rate` KPI accessor returns exactly 100 when the
completed counter is 0, and otherwise the on-time fraction scaled to a
percentage (stated multiplicatively, which also shows the division is by
a provably non-zero denominator). -/
theorem ontimeRate_cases (s : FactorySim) :
    (s.completed = 0 → ontimeRate s = 100) ∧
    (s.completed ≠ 0 →
      ontimeRate s * (s.completed : ℚ) = (s.ontime : ℚ) * 100) := by
  constructor
  · intro h
    simp [ontimeRate, h]
  · intro h
    have hc : ((s.completed : ℚ)) ≠ 0 := Nat.cast_ne_zero.mpr h
    rw [ontimeRate, if_neg h]
    field_simp

/-- Witness for C10: both branches at concrete states. -/
theorem ontimeRate_cases_witness :
    ontimeRate (init 7) = 100 ∧
    ontimeRate { init 7 with completed := 4, ontime := 3 } *
      (((4 : ℕ) : ℚ)) = ((3 : ℕ) : ℚ) * 100 :=
  ⟨(ontimeRate_cases (init 7)).1 (by with_unfolding_all decide),
   (ontimeRate_cases { init 7 with completed := 4, ontime := 3 }).2
     (by decide)⟩

end Pizzatorio
